import Mathlib

/-!
A verification development for the `property_loop` fund-analytics query
executor.  The Python sources (`executor.py`, `api.py`, `chatbot.py`) are
shallowly embedded: JSON query plans become an inductive `Json` type, the
in-memory pandas dataframes become `DataFrame` (a column list plus rows of
association lists, where an absent key models a NaN cell), and the methods
`QueryExecutor._validate_plan` / `QueryExecutor.execute_plan` and the
`/api/chat` handler become executable Lean functions.  Python exceptions are
modelled with `Except String`; an uncaught exception is `Except.error`,
while exceptions caught by the `try/except` in `execute_plan` are folded
into the returned outcome record, exactly as in the source.
-/

namespace PropertyLoop

/-- JSON values, the currency of query plans and of table cells.
Table cells loaded from CSV are `str` or `num`; plans may carry any shape. -/
inductive Json where
  | null : Json
  | bool : Bool → Json
  | num : Int → Json
  | str : String → Json
  | arr : List Json → Json
  | obj : List (String × Json) → Json

/-- Scalar JSON values: the only shapes a CSV table cell can take
(pandas cells are numbers or strings; `null`/`bool` included for safety). -/
def Json.isScalar : Json → Bool
  | .null | .bool _ | .num _ | .str _ => true
  | .arr _ | .obj _ => false

/-- Equality test as pandas applies it to scalar cells: structural on
scalars; composite values are never equal to anything (no claim exercises
comparisons of composite cells, which CSV loading cannot produce). -/
def Json.eqb : Json → Json → Bool
  | .null, .null => true
  | .bool a, .bool b => a == b
  | .num a, .num b => a == b
  | .str a, .str b => a == b
  | _, _ => false

/-- Python truthiness (`bool(x)`) for JSON values. -/
def Json.truthy : Json → Bool
  | .null => false
  | .bool b => b
  | .num q => q != 0
  | .str s => s != ""
  | .arr xs => !xs.isEmpty
  | .obj kvs => !kvs.isEmpty

/-- Rendering used for Python f-string interpolation (`str(x)`).  Composite
values are approximated; no theorem below depends on their rendering. -/
def Json.pyStr : Json → String
  | .null => "None"
  | .bool b => if b then "True" else "False"
  | .num q => toString q
  | .str s => s
  | .arr _ => "[...]"
  | .obj _ => "\x7b...\x7d"

/-- A query plan: the Python `dict` passed to `execute_plan`,
as a JSON object's field list (first occurrence of a key wins). -/
abbrev Plan := List (String × Json)

/-- A row of a CSV table: column name to cell value.  A column of the table
missing from the row models a NaN cell in the pandas dataframe. -/
abbrev Row := List (String × Json)

/-- An in-memory table, as loaded by `pandas.read_csv`. -/
structure DataFrame where
  cols : List String
  rows : List Row

/-- State of the `QueryExecutor` object: the two optional dataframes
assigned by `_load_data` (`None` when the CSV file is absent). -/
structure ExecState where
  trades_df : Option DataFrame
  holdings_df : Option DataFrame

/-- `QueryExecutor.ALLOWED_FILES`. -/
def ALLOWED_FILES : List String := ["trades.csv", "holdings.csv"]

/-- `QueryExecutor.ALLOWED_OPERATIONS` (six entries in the source). -/
def ALLOWED_OPERATIONS : List String :=
  ["count", "aggregate", "group_by", "sort", "filter", "limit"]

/-- `QueryExecutor.ALLOWED_AGGREGATIONS`. -/
def ALLOWED_AGGREGATIONS : List String := ["sum", "mean", "min", "max", "count"]

/-- Python `x in l` where `l` is a list of strings and `x` an arbitrary
JSON value: only a string can be a member. -/
def jsonInStrs (x : Json) (l : List String) : Bool :=
  match x with
  | .str s => l.contains s
  | _ => false

/-- `QueryExecutor._get_dataframe`, keyed by the JSON filename value. -/
def getDataframe (s : ExecState) (f : Json) : Option DataFrame :=
  match f with
  | .str "trades.csv" => s.trades_df
  | .str "holdings.csv" => s.holdings_df
  | _ => none

/-- Python hashability of a JSON value: lists and dicts are unhashable,
every scalar is hashable. -/
def Json.hashable : Json → Bool
  | .arr _ | .obj _ => false
  | _ => true

/-- Pandas `x in df.columns` on an Index of string column names:
`Index.__contains__` hashes the key before looking it up, so an
unhashable value (a list or dict) raises `TypeError`, uncaught by the
validator; hashable non-strings are simply not found. -/
def colContains (v : Json) (df : DataFrame) : Except String Bool :=
  match v with
  | .str c => .ok (df.cols.contains c)
  | .arr _ => .error "TypeError: unhashable type: 'list'"
  | .obj _ => .error "TypeError: unhashable type: 'dict'"
  | _ => .ok false

/-- Substring test, for Python's `in` on strings. -/
def strContains (hay needle : String) : Bool :=
  decide (needle.toList <:+: hay.toList)

/-- The Python type name used in `TypeError` messages. -/
def Json.typeName : Json → String
  | .null => "NoneType"
  | .bool _ => "bool"
  | .num _ => "int"
  | .str _ => "str"
  | .arr _ => "list"
  | .obj _ => "dict"

/-- Python `'column' in filter_item` for an arbitrary JSON `filter_item`:
key membership for dicts, substring for strings, element membership for
lists, and a raised `TypeError` for non-iterable values. -/
def pyContainsColumn : Json → Except String Bool
  | .obj kvs => .ok (kvs.lookup "column").isSome
  | .str s => .ok (strContains s "column")
  | .arr ys => .ok (ys.any (fun y => y.eqb (.str "column")))
  | v => .error ("TypeError: argument of type '" ++ v.typeName ++ "' is not iterable")

/-- Python `filter_item['column']`, evaluated only after
`'column' in filter_item` succeeded: dict lookup, or a raised `TypeError`
for strings and lists indexed by a string. -/
def pyGetColumnKey : Json → Except String Json
  | .obj kvs => .ok ((kvs.lookup "column").getD .null)
  | .str _ => .error "TypeError: string indices must be integers"
  | .arr _ => .error "TypeError: list indices must be integers or slices, not str"
  | v => .error ("TypeError: '" ++ v.typeName ++ "' object is not subscriptable")

/-- The body of `_validate_plan`'s `for filter_item in plan['filters']`
loop over the elements of a filters list.  The membership test
`filter_item['column'] not in df.columns` can raise for an unhashable
column value. -/
def checkFiltersItems (df : DataFrame) (fname : String) :
    List Json → Except String (Option String)
  | [] => .ok none
  | item :: rest => do
    let c ← pyContainsColumn item
    if c then
      let col ← pyGetColumnKey item
      let inCols ← colContains col df
      if !inCols then
        pure (some ("Filter column '" ++ col.pyStr ++ "' not found in " ++ fname))
      else
        checkFiltersItems df fname rest
    else
      checkFiltersItems df fname rest

/-- `for filter_item in plan['filters']` for an arbitrary JSON value of the
`filters` field.  Iterating a string yields one-character strings, for which
`'column' in ch` is always false; iterating a dict yields its keys, and a
key containing `"column"` leads to string indexing, which raises; iterating
a non-iterable raises `TypeError`. -/
def checkFiltersField (df : DataFrame) (fname : String) : Json → Except String (Option String)
  | .arr items => checkFiltersItems df fname items
  | .str _ => .ok none
  | .obj kvs =>
    if kvs.any (fun kv => strContains kv.1 "column") then
      .error "TypeError: string indices must be integers"
    else
      .ok none
  | v => .error ("TypeError: '" ++ v.typeName ++ "' object is not iterable")

/-- One truthy-guarded column check of `_validate_plan`
(`if plan[key]: if plan[key] not in df.columns: return False, msg`):
skip when falsy, otherwise test membership (which may raise) and either
reject or continue with the remaining checks. -/
def colCheckStep (v : Json) (df : DataFrame) (msg : String)
    (rest : Except String (Option String)) : Except String (Option String) :=
  if v.truthy then do
    let c ← colContains v df
    if !c then pure (some msg) else rest
  else rest

/-- The filter-column part of the per-file checks
(lines 111-114 of `executor.py`). -/
def filtersPart (df : DataFrame) (kvs : Plan) (fname : String) :
    Except String (Option String) :=
  match kvs.lookup "filters" with
  | none => .ok none
  | some fv => checkFiltersField df fname fv

/-- The metric check followed by the filter checks
(lines 107-114 of `executor.py`). -/
def metricPart (df : DataFrame) (kvs : Plan) (fname : String) :
    Except String (Option String) :=
  match kvs.lookup "metric" with
  | some mv =>
    colCheckStep mv df ("Column '" ++ mv.pyStr ++ "' not found in " ++ fname)
      (filtersPart df kvs fname)
  | none => filtersPart df kvs fname

/-- The per-file column checks of `_validate_plan` (lines 101-114 of
`executor.py`): group-by column, metric column, then filter columns. -/
def checkColumnsFile (df : DataFrame) (kvs : Plan) (fname : String) :
    Except String (Option String) :=
  match kvs.lookup "group_by" with
  | some gv =>
    colCheckStep gv df ("Column '" ++ gv.pyStr ++ "' not found in " ++ fname)
      (metricPart df kvs fname)
  | none => metricPart df kvs fname

/-- The first `for file in files` loop of `_validate_plan`: whitelist
membership and loadedness of every listed file. -/
def checkFilesLoop (s : ExecState) : List Json → Option String
  | [] => none
  | f :: fs =>
    if !(jsonInStrs f ALLOWED_FILES) then
      some ("File '" ++ f.pyStr ++
        "' is not allowed. Allowed files: ['trades.csv', 'holdings.csv']")
    else
      match getDataframe s f with
      | none => some ("File '" ++ f.pyStr ++ "' not found or could not be loaded")
      | some _ => checkFilesLoop s fs

/-- The operation and aggregation checks of `_validate_plan`
(lines 88-98 of `executor.py`). -/
def validateOperationChecks (op : Json) (kvs : Plan) : Option String :=
  if !(jsonInStrs op ALLOWED_OPERATIONS) then
    some ("Operation '" ++ op.pyStr ++
      "' not allowed. Allowed: ['count', 'aggregate', 'group_by', 'sort', 'filter', 'limit']")
  else if op.eqb (.str "aggregate") then
    match kvs.lookup "aggregation" with
    | none => some "Operation 'aggregate' requires 'aggregation' field"
    | some ag =>
      if !(jsonInStrs ag ALLOWED_AGGREGATIONS) then
        some ("Aggregation '" ++ ag.pyStr ++
          "' not allowed. Allowed: ['sum', 'mean', 'min', 'max', 'count']")
      else none
  else none

/-- The second `for file in files` loop of `_validate_plan`: per-file
column checks.  The dataframe re-lookup cannot be `None` after the first
loop passed; were it, Python would raise an `AttributeError`. -/
def checkColumnsLoop (s : ExecState) (kvs : Plan) :
    List Json → Except String (Option String)
  | [] => .ok none
  | f :: fs =>
    match getDataframe s f with
    | none => .error "AttributeError: 'NoneType' object has no attribute 'columns'"
    | some df => do
      match ← checkColumnsFile df kvs f.pyStr with
      | some msg => pure (some msg)
      | none => checkColumnsLoop s kvs fs

/-- The file, operation and column checks of `_validate_plan`, once the
`files` field is known to be a list and `operation` is present. -/
def validatePlanCore (s : ExecState) (kvs : Plan) (fs : List Json) (op : Json) :
    Except String (Bool × String) :=
  match checkFilesLoop s fs with
  | some msg => .ok (false, msg)
  | none =>
    match validateOperationChecks op kvs with
    | some msg => .ok (false, msg)
    | none =>
      match checkColumnsLoop s kvs fs with
      | .error e => .error e
      | .ok (some msg) => .ok (false, msg)
      | .ok none => .ok (true, "")

/-- `QueryExecutor._validate_plan`.  Returns `(is_valid, error_message)`;
an `Except.error` models an exception escaping the method (which the
caller `execute_plan` does not catch, since validation runs before its
`try` block).  The required-field checks run in source order: missing
`files`, then missing `operation`, then the list check on `files`. -/
def validatePlan (s : ExecState) (kvs : Plan) : Except String (Bool × String) :=
  match kvs.lookup "files", kvs.lookup "operation" with
  | none, _ => .ok (false, "Missing 'files' field in plan")
  | some _, none => .ok (false, "Missing 'operation' field in plan")
  | some (.arr fs), some op => validatePlanCore s kvs fs op
  | some _, some _ => .ok (false, "'files' must be a list")

/-! ## Execution (`QueryExecutor.execute_plan`) -/

/-- A query result: either a scalar or a mapping from group key to value
(the `to_dict()` of a grouped aggregation, in iteration order). -/
inductive ExecValue where
  | scalar (q : Int)
  | dict (entries : List (Json × Int))

/-- The dictionary returned by `execute_plan`: `success`, `error`,
`result`, and (on success) an echo of the plan. -/
structure PyOutcome where
  success : Bool
  error : Option String
  result : Option ExecValue
  planEcho : Option Plan

/-- `df[v]` for a JSON value `v`: the column name, or a raised `KeyError`. -/
def requireCol (df : DataFrame) (v : Json) : Except String String :=
  match v with
  | .str c => if df.cols.contains c then .ok c else .error ("KeyError: '" ++ c ++ "'")
  | x => .error ("KeyError: " ++ x.pyStr)

/-- Pandas ordering comparison of a cell against a filter literal.
Numbers compare numerically and strings lexicographically; a mixed-type or
non-scalar comparison raises `TypeError`, as pandas does. -/
def pyCompare (op : String) (cell value : Json) : Except String Bool :=
  match cell, value with
  | .num a, .num b =>
    .ok (if op = ">" then decide (b < a)
      else if op = "<" then decide (a < b)
      else if op = ">=" then decide (b ≤ a)
      else decide (a ≤ b))
  | .str a, .str b =>
    .ok (if op = ">" then decide (b < a)
      else if op = "<" then decide (a < b)
      else if op = ">=" then decide (b ≤ a)
      else decide (a ≤ b))
  | c, v =>
    .error ("TypeError: '" ++ op ++ "' not supported between instances of '" ++
      c.typeName ++ "' and '" ++ v.typeName ++ "'")

/-- Monadic row filter, propagating a raised comparison error. -/
def filterRowsM (keep : Row → Except String Bool) : List Row → Except String (List Row)
  | [] => .ok []
  | r :: rs => do
    let k ← keep r
    let rest ← filterRowsM keep rs
    pure (if k then r :: rest else rest)

/-- One iteration of the filter loop in `execute_plan` (lines 151-169 of
`executor.py`).  `column`, `operator` and `value` are read with `.get`
(defaults `None`, `'=='`, `None`); the operator dispatch touches the
column only inside a matched branch, and an unrecognized operator matches
no branch, leaving the dataframe unchanged.  A missing cell models a NaN:
`==`, orderings and `in` are false on NaN, `!=` is true. -/
def applyFilterItem (df : DataFrame) (item : Json) : Except String DataFrame :=
  match item with
  | .obj kv =>
    let column := (kv.lookup "column").getD .null
    let value := (kv.lookup "value").getD .null
    match (kv.lookup "operator").getD (.str "==") with
    | .str "==" => do
      let c ← requireCol df column
      let rows ← filterRowsM (fun r => pure (match r.lookup c with
        | some cell => cell.eqb value
        | none => false)) df.rows
      pure ⟨df.cols, rows⟩
    | .str "!=" => do
      let c ← requireCol df column
      let rows ← filterRowsM (fun r => pure (match r.lookup c with
        | some cell => !(cell.eqb value)
        | none => true)) df.rows
      pure ⟨df.cols, rows⟩
    | .str ">" => do
      let c ← requireCol df column
      let rows ← filterRowsM (fun r => match r.lookup c with
        | some cell => pyCompare ">" cell value
        | none => pure false) df.rows
      pure ⟨df.cols, rows⟩
    | .str "<" => do
      let c ← requireCol df column
      let rows ← filterRowsM (fun r => match r.lookup c with
        | some cell => pyCompare "<" cell value
        | none => pure false) df.rows
      pure ⟨df.cols, rows⟩
    | .str ">=" => do
      let c ← requireCol df column
      let rows ← filterRowsM (fun r => match r.lookup c with
        | some cell => pyCompare ">=" cell value
        | none => pure false) df.rows
      pure ⟨df.cols, rows⟩
    | .str "<=" => do
      let c ← requireCol df column
      let rows ← filterRowsM (fun r => match r.lookup c with
        | some cell => pyCompare "<=" cell value
        | none => pure false) df.rows
      pure ⟨df.cols, rows⟩
    | .str "in" =>
      match value with
      | .arr xs => do
        let c ← requireCol df column
        let rows ← filterRowsM (fun r => pure (match r.lookup c with
          | some cell => xs.any (fun x => cell.eqb x)
          | none => false)) df.rows
        pure ⟨df.cols, rows⟩
      | v =>
        .error ("TypeError: only list-like objects are allowed to be passed to isin(), you passed a [" ++ v.typeName ++ "]")
    | _ => .ok df
  | v => .error ("AttributeError: '" ++ v.typeName ++ "' object has no attribute 'get'")

/-- The `for filter_item in plan['filters']` loop of `execute_plan`. -/
def applyFilters (df : DataFrame) : List Json → Except String DataFrame
  | [] => .ok df
  | item :: rest => do applyFilters (← applyFilterItem df item) rest

/-- The error Python raises when iterating a truthy non-list `filters`
value at execution time: strings and dicts iterate to strings, whose
`.get` raises `AttributeError`; numbers and booleans are not iterable. -/
def filtersNonListError (v : Json) : String :=
  match v with
  | .str _ | .obj _ => "AttributeError: 'str' object has no attribute 'get'"
  | x => "TypeError: '" ++ x.typeName ++ "' object is not iterable"

/-- Distinct values in first-occurrence order.  (pandas `groupby` emits
group keys in sorted order; the claims below are insensitive to key order,
and CSV columns are homogeneous so ordering the keys cannot raise.) -/
def dedupFirst : List Json → List Json
  | [] => []
  | k :: ks => k :: (dedupFirst ks).filter (fun x => !(x.eqb k))

/-- The group keys of `df.groupby(g)`: distinct non-NaN values of column
`g` (rows whose group cell is missing are dropped by pandas). -/
def groupKeys (rows : List Row) (g : String) : List Json :=
  dedupFirst (rows.filterMap (fun r => r.lookup g))

/-- The rows of one group: those whose `g`-cell equals the key. -/
def groupRows (rows : List Row) (g : String) (k : Json) : List Row :=
  rows.filter (fun r => match r.lookup g with
    | some v => v.eqb k
    | none => false)

/-- The cells of column `m`, one `Option` per row (`none` is NaN). -/
def metricCells (rows : List Row) (m : String) : List (Option Json) :=
  rows.map (fun r => r.lookup m)

/-- Numeric values of a cell list, skipping NaN (as pandas reducers do).
A non-numeric cell is a `TypeError`: summation of string columns (which
pandas would concatenate) is outside the modelled fragment, and no claim
exercises it. -/
def numsOf : List (Option Json) → Except String (List Int)
  | [] => .ok []
  | none :: rest => numsOf rest
  | some (.num q) :: rest => do pure (q :: (← numsOf rest))
  | some v :: _ => .error ("TypeError: unsupported operand type(s) for aggregation: '" ++ v.typeName ++ "'")

/-- One of the five reducers applied to the cells of a (sub)column.
`count` counts non-NaN cells of any type; the numeric reducers skip NaN.
An empty input to `mean`/`min`/`max` would give a float NaN in pandas,
which is outside the modelled fragment. -/
def aggCells (agg : String) (cells : List (Option Json)) : Except String Int :=
  if agg = "count" then .ok (((cells.filterMap id).length : Int))
  else do
    let vals ← numsOf cells
    if agg = "sum" then pure vals.sum
    else if agg = "mean" then
      .error "float: the float-valued mean is outside the modelled integer fragment"
    else if agg = "min" then
      match vals.min? with
      | some v => pure v
      | none => .error "NaN: min of an empty column is outside the modelled fragment"
    else if agg = "max" then
      match vals.max? with
      | some v => pure v
      | none => .error "NaN: max of an empty column is outside the modelled fragment"
    else .error "unreachable: aggregation whitelisted by the caller"

/-- `df.groupby(g)[m].<agg>().to_dict()`: one entry per group key. -/
def groupAggLoop (rows : List Row) (g m agg : String) :
    List Json → Except String (List (Json × Int))
  | [] => .ok []
  | k :: ks => do
    let v ← aggCells agg (metricCells (groupRows rows g k) m)
    pure ((k, v) :: (← groupAggLoop rows g m agg ks))

/-- The operation step of `execute_plan` (lines 172-207 of `executor.py`).
Returns `none` when the Python code leaves the local variable `result`
unassigned (operation not `count`/`aggregate`, or an aggregation matching
no `elif` branch), which surfaces later as a `NameError`. -/
def runOperation (df : DataFrame) (kvs : Plan) : Except String (Option ExecValue) :=
  let grouped : Option Json :=
    match kvs.lookup "group_by" with
    | some gv => if gv.truthy then some gv else none
    | none => none
  match (kvs.lookup "operation").getD .null with
  | .str "count" =>
    match grouped with
    | some gv => do
      let g ← requireCol df gv
      pure (some (.dict ((groupKeys df.rows g).map
        (fun k => (k, ((groupRows df.rows g k).length : Int))))))
    | none => pure (some (.scalar (df.rows.length : Int)))
  | .str "aggregate" =>
    let metric := (kvs.lookup "metric").getD .null
    match grouped with
    | some gv => do
      let g ← requireCol df gv
      let m ← requireCol df metric
      match (kvs.lookup "aggregation").getD (.str "sum") with
      | .str a =>
        if ALLOWED_AGGREGATIONS.contains a then do
          pure (some (.dict (← groupAggLoop df.rows g m a (groupKeys df.rows g))))
        else pure none
      | _ => pure none
    | none =>
      match (kvs.lookup "aggregation").getD (.str "sum") with
      | .str a =>
        if ALLOWED_AGGREGATIONS.contains a then do
          let m ← requireCol df metric
          let v ← aggCells a (metricCells df.rows m)
          pure (some (.scalar v))
        else pure none
      | _ => pure none
  | _ => pure none

/-- Value comparison used by `sorted(result.items(), key=lambda x: x[1],
reverse=reverse)`: keep `a` before `b`. -/
def valLe (desc : Bool) (a b : Json × Int) : Bool :=
  if desc then decide (b.2 ≤ a.2) else decide (a.2 ≤ b.2)

/-- Stable insertion into a sorted list: the new element goes after
existing elements it compares equal to, as Python's stable sort does. -/
def insertSorted (le : (Json × Int) → (Json × Int) → Bool) (x : Json × Int) :
    List (Json × Int) → List (Json × Int)
  | [] => [x]
  | y :: ys => if le y x then y :: insertSorted le x ys else x :: y :: ys

/-- `sorted(result.items(), key=lambda x: x[1], reverse=desc)`. -/
def sortEntries (desc : Bool) (es : List (Json × Int)) : List (Json × Int) :=
  es.foldl (fun acc x => insertSorted (valLe desc) x acc) []

/-- The sort step of `execute_plan` (lines 210-216): a dict result is
re-ordered by value; any other result is left alone (the `pd.Series`
branch is dead code here, since results are scalars or dicts). -/
def applySort (sv : Json) (r : ExecValue) : ExecValue :=
  match r with
  | .dict es => .dict (sortEntries (sv.eqb (.str "desc")) es)
  | .scalar q => .scalar q

/-- The limit step of `execute_plan` (lines 219-223):
`dict(list(result.items())[:limit])` with Python slice semantics
(negative limits drop from the end); non-integer limits raise. -/
def applyLimit (lv : Json) (r : ExecValue) : Except String ExecValue :=
  match r with
  | .scalar q => .ok (.scalar q)
  | .dict es =>
    match lv with
    | .num n =>
      .ok (.dict (if 0 ≤ n then es.take n.toNat
        else es.take (es.length - (-n).toNat)))
    | .bool true => .ok (.dict (es.take 1))
    | _ => .error "TypeError: slice indices must be integers or None or have an __index__ method"

/-- The guarded sort step: `if 'sort' in plan and plan['sort']:`. -/
def sortStep (kvs : Plan) (r : ExecValue) : ExecValue :=
  match kvs.lookup "sort" with
  | some sv => if sv.truthy then applySort sv r else r
  | none => r

/-- The guarded limit step: `if 'limit' in plan and plan['limit']:`.
A falsy limit (absent, `0`, `None`, ...) leaves the result untouched. -/
def limitStep (kvs : Plan) (r : ExecValue) : Except String ExecValue :=
  match kvs.lookup "limit" with
  | some lv => if lv.truthy then applyLimit lv r else pure r
  | none => pure r

/-- The body of `execute_plan`'s `try` block (lines 138-230): first file,
filters, operation, sort, limit, success dictionary.  A `none` result from
the operation step raises `NameError` at the first later use of `result`. -/
def execBody (s : ExecState) (kvs : Plan) : Except String PyOutcome :=
  match kvs.lookup "files" with
  | none => .error "KeyError: 'files'"
  | some (.arr []) => .error "IndexError: list index out of range"
  | some (.arr (f :: _)) =>
    match getDataframe s f with
    | none => .ok ⟨false, some ("File '" ++ f.pyStr ++ "' not loaded"), none, none⟩
    | some df0 => do
      let df ← match kvs.lookup "filters" with
        | some fv =>
          if fv.truthy then
            match fv with
            | .arr items => applyFilters df0 items
            | v => .error (filtersNonListError v)
          else pure df0
        | none => pure df0
      match ← runOperation df kvs with
      | none => .error "name 'result' is not defined"
      | some r0 =>
        let r2 ← limitStep kvs (sortStep kvs r0)
        pure ⟨true, none, some r2, some kvs⟩
  | some (.str st) =>
    if st.isEmpty then .error "IndexError: string index out of range"
    else
      match getDataframe s (.str (st.take 1)) with
      | none => .ok ⟨false, some ("File '" ++ st.take 1 ++ "' not loaded"), none, none⟩
      | some _ => .error "unreachable: a one-character string is no filename"
  | some v => .error ("TypeError: '" ++ v.typeName ++ "' object is not subscriptable")

/-- `QueryExecutor.execute_plan`.  Validation runs before the `try` block,
so an exception it raises escapes; exceptions inside the body are caught
and folded into a failure outcome. -/
def executePlan (s : ExecState) (kvs : Plan) : Except String PyOutcome :=
  match validatePlan s kvs with
  | .error e => .error e
  | .ok (false, msg) => .ok ⟨false, some msg, none, none⟩
  | .ok (true, _) =>
    match execBody s kvs with
    | .ok out => .ok out
    | .error e => .ok ⟨false, some e, none, none⟩

/-- `execute_plan` viewed as acting on the `QueryExecutor` object state.
The method body contains no assignment to `self.trades_df` or
`self.holdings_df` (those are assigned only in `_load_data`), so the
object state after the call is the state before it; the model makes the
state explicit and returns it alongside the outcome. -/
def executePlanSt (s : ExecState) (kvs : Plan) : Except String PyOutcome × ExecState :=
  (executePlan s kvs, s)

/-! ## API layer (`api.py`, `chatbot.py`) -/

/-- `config.ERROR_MESSAGE`. -/
def ERROR_MESSAGE : String := "Sorry can not find the answer"

/-- `QueryExecutor.get_available_columns`. -/
def getAvailableColumns (s : ExecState) : List (String × List String) :=
  (match s.trades_df with
    | some df => [("trades.csv", df.cols)]
    | none => []) ++
  (match s.holdings_df with
    | some df => [("holdings.csv", df.cols)]
    | none => [])

/-- The `FundAnalyticsChatbot` object: the executor state plus the two
external LLM calls as oracles.  `planner` is `LLMPlanner.generate_plan`
(`none` models a failed or null plan); `explainer` is
`LLMExplainer.explain_results` including its templated fallback. -/
structure Chatbot where
  exec : ExecState
  planner : String → List (String × List String) → Option Plan
  explainer : String → Plan → PyOutcome → String

/-- `FundAnalyticsChatbot.answer_question`: Plan → Execute → Explain.
An exception escaping `execute_plan` propagates to the caller. -/
def answerQuestion (cb : Chatbot) (question : String) : Except String String :=
  match cb.planner question (getAvailableColumns cb.exec) with
  | none => .ok ERROR_MESSAGE
  | some plan =>
    match executePlan cb.exec plan with
    | .error e => .error e
    | .ok out =>
      if out.success then .ok (cb.explainer question plan out)
      else .ok ERROR_MESSAGE

/-- Python `str.strip()`: remove whitespace from both ends. -/
def pyStrip (s : String) : String :=
  String.mk (((s.toList.dropWhile Char.isWhitespace).reverse.dropWhile
    Char.isWhitespace).reverse)

/-- The HTTP-visible outcome of `POST /api/chat`: either a raised
`HTTPException` or a `QuestionResponse`. -/
inductive ChatOutcome where
  | httpError (status : Nat) (detail : String)
  | response (answer : String) (success : Bool)

/-- The `chat` endpoint of `api.py`: 503 when the chatbot is
uninitialized, 400 when the question is empty or whitespace-only, then
`answer_question` on the stripped question, with exceptions caught into a
failure response. -/
def chatEndpoint (cb : Option Chatbot) (question : String) : ChatOutcome :=
  match cb with
  | none => .httpError 503 "Chatbot not initialized. Check OPENAI_API_KEY and data files."
  | some c =>
    if question = "" || pyStrip question = "" then
      .httpError 400 "Question cannot be empty"
    else
      match answerQuestion c (pyStrip question) with
      | .ok a => .response a true
      | .error e => .response ("Error processing question: " ++ e) false

/-! ## Demo data: the holdings table of the specification's example -/

/-- The holdings table
`[{Fund:"A",PL:100},{Fund:"B",PL:50},{Fund:"A",PL:20}]`. -/
def holdingsDemo : DataFrame :=
  ⟨["Fund", "PL"],
   [[("Fund", .str "A"), ("PL", .num 100)],
    [("Fund", .str "B"), ("PL", .num 50)],
    [("Fund", .str "A"), ("PL", .num 20)]]⟩

/-- Executor state with only the demo holdings table loaded. -/
def demoState : ExecState := ⟨none, some holdingsDemo⟩

/-- The example plan
`{files:[holdings.csv], operation:aggregate, metric:PL, aggregation:sum, group_by:Fund}`. -/
def demoPlan : Plan :=
  [("files", .arr [.str "holdings.csv"]),
   ("operation", .str "aggregate"),
   ("metric", .str "PL"),
   ("aggregation", .str "sum"),
   ("group_by", .str "Fund")]

/-- A grouped sum plan over table `f`, metric `m`, group column `g`. -/
def aggPlan (f g m : String) : Plan :=
  [("files", .arr [.str f]),
   ("operation", .str "aggregate"),
   ("metric", .str m),
   ("aggregation", .str "sum"),
   ("group_by", .str g)]

/-- The same plan without the group-by field. -/
def aggPlanNoGroup (f m : String) : Plan :=
  [("files", .arr [.str f]),
   ("operation", .str "aggregate"),
   ("metric", .str m),
   ("aggregation", .str "sum")]

/-- Specification-side sum of the numeric `m`-cells of a row list
(missing and non-numeric cells contribute nothing). -/
def metricSum (rows : List Row) (m : String) : Int :=
  (rows.filterMap (fun r => match r.lookup m with
    | some (.num q) => some q
    | _ => none)).sum

/-- Well-formed `filters` field: absent, or a list of JSON objects whose
`column` values (where present) are hashable — the only shapes of the
field for which `_validate_plan`'s filter loop cannot raise. -/
def wfFilters (kvs : Plan) : Prop :=
  match kvs.lookup "filters" with
  | none => True
  | some (.arr items) => ∀ x ∈ items, ∃ o, x = Json.obj o ∧
      ∀ col, o.lookup "column" = some col → col.hashable = true
  | some _ => False

/-- Hashable (truthy) group-by and metric values: the shapes for which
the validator's `not in df.columns` tests cannot raise. -/
def wfColumnRefs (kvs : Plan) : Prop :=
  (∀ gv, kvs.lookup "group_by" = some gv → gv.truthy = true → gv.hashable = true) ∧
  (∀ mv, kvs.lookup "metric" = some mv → mv.truthy = true → mv.hashable = true)

/-- A per-file column reference that `_validate_plan` flags with a clean
rejection: a truthy group-by or metric value, or a filter entry's
`column` value, whose membership test returns false (a string absent
from the schema, or any hashable non-string). -/
def columnRefBad (kvs : Plan) (df : DataFrame) : Prop :=
  (∃ gv, kvs.lookup "group_by" = some gv ∧ gv.truthy = true ∧
    colContains gv df = .ok false) ∨
  (∃ mv, kvs.lookup "metric" = some mv ∧ mv.truthy = true ∧
    colContains mv df = .ok false) ∨
  (∃ items o col, kvs.lookup "filters" = some (.arr items) ∧ Json.obj o ∈ items ∧
    o.lookup "column" = some col ∧ colContains col df = .ok false)

/-- A chatbot whose oracles do nothing, for witnesses. -/
def trivialChatbot : Chatbot :=
  ⟨demoState, fun _ _ => none, fun _ _ _ => ""⟩

/-! ## Helper lemmas -/

theorem Json.eqb_eq_true_iff {a : Json} (ha : a.isScalar = true) (b : Json) :
    a.eqb b = true ↔ a = b := by
  cases a <;> cases b <;> simp_all [Json.eqb, Json.isScalar]

theorem mem_of_mem_dedupFirst {x : Json} :
    ∀ {l : List Json}, x ∈ dedupFirst l → x ∈ l := by
  intro l
  induction l with
  | nil => simp [dedupFirst]
  | cons k ks ih =>
    intro h
    rcases List.mem_cons.mp h with rfl | h
    · exact List.mem_cons_self _ _
    · exact List.mem_cons_of_mem _ (ih (List.mem_of_mem_filter h))

theorem mem_dedupFirst_of_mem {x : Json} (hx : x.isScalar = true) :
    ∀ {l : List Json}, x ∈ l → x ∈ dedupFirst l := by
  intro l
  induction l with
  | nil => simp
  | cons k ks ih =>
    intro h
    rcases List.mem_cons.mp h with rfl | h
    · exact List.mem_cons_self _ _
    · by_cases hk : x.eqb k = true
      · rw [Json.eqb_eq_true_iff hx] at hk
        subst hk
        exact List.mem_cons_self _ _
      · refine List.mem_cons_of_mem _ (List.mem_filter.mpr ⟨ih h, ?_⟩)
        simp [hk]

theorem dedupFirst_pairwise_ne :
    ∀ (l : List Json), (∀ x ∈ l, x.isScalar = true) →
      (dedupFirst l).Pairwise (fun a b => a ≠ b) := by
  intro l
  induction l with
  | nil => simp [dedupFirst]
  | cons k ks ih =>
    intro hsc
    refine List.Pairwise.cons ?_ ?_
    · intro b hb
      have hb2 := List.mem_filter.mp hb
      have hbsc : b.isScalar = true :=
        hsc b (List.mem_cons_of_mem _ (mem_of_mem_dedupFirst hb2.1))
      intro hkb
      subst hkb
      have hkk : k.eqb k = true := (Json.eqb_eq_true_iff hbsc k).mpr rfl
      simp [hkk] at hb2
    · exact (ih (fun x hx => hsc x (List.mem_cons_of_mem _ hx))).filter _

/-- Splitting a filterMap-sum along a Boolean predicate. -/
theorem sum_filterMap_split (p : Row → Bool) (fm : Row → Option Int) :
    ∀ l : List Row,
      ((l.filter p).filterMap fm).sum +
        ((l.filter (fun r => !(p r))).filterMap fm).sum =
      (l.filterMap fm).sum := by
  intro l
  induction l with
  | nil => simp
  | cons r rs ih =>
    by_cases hp : p r = true <;> cases hfm : fm r <;>
      simp [List.filter_cons, List.filterMap_cons, hp, hfm] <;> omega

/-- The `m`-sum over a filtered row list, split along a predicate. -/
theorem metricSum_split (p : Row → Bool) (rows : List Row) (m : String) :
    metricSum (rows.filter p) m + metricSum (rows.filter (fun r => !(p r))) m =
      metricSum rows m := by
  simpa [metricSum] using
    sum_filterMap_split p (fun r => match r.lookup m with
      | some (.num q) => some q
      | _ => none) rows

/-- Group sums partition the total: summing the per-group `m`-sums over a
duplicate-free list of scalar keys that covers every row's group cell
gives the whole-table `m`-sum. -/
theorem metricSum_partition (g m : String) :
    ∀ (keys : List Json) (rows : List Row),
      (∀ k ∈ keys, k.isScalar = true) →
      keys.Pairwise (fun a b => a ≠ b) →
      (∀ r ∈ rows, ∃ v, r.lookup g = some v ∧ v ∈ keys) →
      (keys.map (fun k => metricSum (groupRows rows g k) m)).sum =
        metricSum rows m := by
  intro keys
  induction keys with
  | nil =>
    intro rows _ _ hcov
    cases rows with
    | nil => simp [metricSum]
    | cons r rs =>
      rcases hcov r (List.mem_cons_self _ _) with ⟨v, _, hv⟩
      simp at hv
  | cons k ks ih =>
    intro rows hsc hnd hcov
    have hknd := List.pairwise_cons.mp hnd
    set p : Row → Bool := fun r => match r.lookup g with
      | some v => v.eqb k
      | none => false with hpdef
    set B := rows.filter (fun r => !(p r)) with hBdef
    have hmemB : ∀ r ∈ B, r ∈ rows := fun r hr => List.mem_of_mem_filter hr
    have hcovB : ∀ r ∈ B, ∃ v, r.lookup g = some v ∧ v ∈ ks := by
      intro r hr
      rcases hcov r (hmemB r hr) with ⟨v, hv, hvk⟩
      have hvsc : v.isScalar = true := hsc v hvk
      have hpr := (List.mem_filter.mp hr).2
      rcases List.mem_cons.mp hvk with rfl | hvk2
      · exfalso
        have : p r = true := by
          simp [hpdef, hv, (Json.eqb_eq_true_iff hvsc v).mpr rfl]
        simp [this] at hpr
      · exact ⟨v, hv, hvk2⟩
    have hgrp : ∀ k' ∈ ks, groupRows rows g k' = groupRows B g k' := by
      intro k' hk'
      rw [hBdef]
      unfold groupRows
      rw [List.filter_filter]
      refine (List.filter_congr ?_).symm
      intro r hr
      cases hv : r.lookup g with
      | none => simp [hpdef, hv]
      | some v =>
        rcases hcov r hr with ⟨v0, hv0, hv0k⟩
        rw [hv] at hv0
        injection hv0 with hv0
        subst hv0
        have hvsc : v.isScalar = true := hsc v hv0k
        by_cases hvk' : v.eqb k' = true
        · have hv_eq : v = k' := (Json.eqb_eq_true_iff hvsc k').mp hvk'
          have hvnek : ¬(v.eqb k = true) := by
            rw [Json.eqb_eq_true_iff hvsc]
            intro h
            rw [hv_eq] at h
            exact hknd.1 k' hk' h.symm
          simp [hpdef, hv, hvk', Bool.not_eq_true] at hvnek ⊢
          simp [hvnek]
        · simp [hv, hvk', hpdef]
    have hsum := metricSum_split p rows m
    have hhead : groupRows rows g k = rows.filter p := rfl
    calc (((k :: ks).map (fun k => metricSum (groupRows rows g k) m)).sum)
        = metricSum (rows.filter p) m +
            (ks.map (fun k => metricSum (groupRows rows g k) m)).sum := by
          simp [hhead]
      _ = metricSum (rows.filter p) m +
            (ks.map (fun k => metricSum (groupRows B g k) m)).sum := by
          congr 1
          refine congrArg List.sum (List.map_congr_left ?_)
          intro k' hk'
          rw [hgrp k' hk']
      _ = metricSum (rows.filter p) m + metricSum B m :=
          congrArg _ (ih B (fun x hx => hsc x (List.mem_cons_of_mem _ hx))
            hknd.2 hcovB)
      _ = metricSum rows m := hsum

theorem numsOf_eq_ok (cells : List (Option Json))
    (h : ∀ c ∈ cells, ∀ v, c = some v → ∃ q, v = Json.num q) :
    numsOf cells = .ok (cells.filterMap (fun c => match c with
      | some (.num q) => some q
      | _ => none)) := by
  induction cells with
  | nil => simp [numsOf]
  | cons c rest ih =>
    have hrest := fun c hc => h c (List.mem_cons_of_mem _ hc)
    cases c with
    | none => simpa [numsOf, List.filterMap_cons] using ih hrest
    | some v =>
      rcases h _ (List.mem_cons_self _ _) v rfl with ⟨q, rfl⟩
      simp [numsOf, List.filterMap_cons, ih hrest]

theorem aggCells_sum (rows : List Row) (m : String)
    (h : ∀ r ∈ rows, ∃ q, r.lookup m = some (Json.num q)) :
    aggCells "sum" (metricCells rows m) = .ok (metricSum rows m) := by
  have hc : ∀ c ∈ metricCells rows m, ∀ v, c = some v → ∃ q, v = Json.num q := by
    intro c hcm v hv
    rcases List.mem_map.mp hcm with ⟨r, hr, rfl⟩
    rcases h r hr with ⟨q, hq⟩
    rw [hv] at hq
    injection hq with hq
    exact ⟨q, hq⟩
  rw [aggCells]
  rw [if_neg (by decide : ¬("sum" : String) = "count")]
  show (numsOf (metricCells rows m) >>= fun vals => _) = _
  rw [numsOf_eq_ok _ hc]
  show Except.ok _ = _
  rw [metricCells, List.filterMap_map]
  rfl

theorem groupAggLoop_sum (rows : List Row) (g m : String)
    (h : ∀ r ∈ rows, ∃ q, r.lookup m = some (Json.num q)) :
    ∀ keys, groupAggLoop rows g m "sum" keys =
      .ok (keys.map (fun k => (k, metricSum (groupRows rows g k) m))) := by
  intro keys
  induction keys with
  | nil => simp [groupAggLoop]
  | cons k ks ih =>
    have hsub : ∀ r ∈ groupRows rows g k, ∃ q, r.lookup m = some (Json.num q) :=
      fun r hr => h r (List.mem_of_mem_filter hr)
    rw [groupAggLoop]
    rw [show aggCells "sum" (metricCells (groupRows rows g k) m) =
      .ok (metricSum (groupRows rows g k) m) from aggCells_sum _ _ hsub]
    show (Except.ok _ >>= fun v => _) = _
    rw [show groupAggLoop rows g m "sum" ks =
      .ok (ks.map (fun k => (k, metricSum (groupRows rows g k) m))) from ih]
    rfl

theorem mem_insertSorted (le : (Json × Int) → (Json × Int) → Bool)
    (x z : Json × Int) :
    ∀ l, z ∈ insertSorted le x l ↔ z = x ∨ z ∈ l := by
  intro l
  induction l with
  | nil => simp [insertSorted]
  | cons y ys ih =>
    by_cases h : le y x = true
    · rw [insertSorted]
      simp only [h, if_true, List.mem_cons, ih]
      tauto
    · rw [insertSorted]
      simp [h]

theorem pairwise_insertSorted (le : (Json × Int) → (Json × Int) → Bool)
    (total : ∀ a b, le a b = true ∨ le b a = true)
    (htrans : ∀ a b c, le a b = true → le b c = true → le a c = true)
    (x : Json × Int) :
    ∀ l, l.Pairwise (fun a b => le a b = true) →
      (insertSorted le x l).Pairwise (fun a b => le a b = true) := by
  intro l
  induction l with
  | nil =>
    intro _
    simp [insertSorted]
  | cons y ys ih =>
    intro hp
    have hyp := List.pairwise_cons.mp hp
    by_cases h : le y x = true
    · rw [insertSorted]
      simp only [h, if_true]
      refine List.Pairwise.cons ?_ (ih hyp.2)
      intro z hz
      rcases (mem_insertSorted le x z ys).mp hz with rfl | hz2
      · exact h
      · exact hyp.1 z hz2
    · rw [insertSorted]
      simp only [h, if_false, Bool.false_eq_true]
      refine List.Pairwise.cons ?_ hp
      intro z hz
      have hxy : le x y = true := (total x y).resolve_right h
      rcases List.mem_cons.mp hz with rfl | hz2
      · exact hxy
      · exact htrans x y z hxy (hyp.1 z hz2)

theorem valLe_total (desc : Bool) :
    ∀ a b, valLe desc a b = true ∨ valLe desc b a = true := by
  intro a b
  cases desc <;> simp [valLe] <;> exact le_total _ _

theorem valLe_trans (desc : Bool) :
    ∀ a b c, valLe desc a b = true → valLe desc b c = true →
      valLe desc a c = true := by
  intro a b c
  cases desc
  · simp only [valLe, if_false, Bool.false_eq_true, decide_eq_true_eq]
    exact fun h1 h2 => le_trans h1 h2
  · simp only [valLe, if_true, decide_eq_true_eq]
    exact fun h1 h2 => le_trans h2 h1

theorem pairwise_sortEntries (desc : Bool) (es : List (Json × Int)) :
    (sortEntries desc es).Pairwise (fun a b => valLe desc a b = true) := by
  suffices h : ∀ (l : List (Json × Int)) (acc : List (Json × Int)),
      acc.Pairwise (fun a b => valLe desc a b = true) →
      (l.foldl (fun acc x => insertSorted (valLe desc) x acc) acc).Pairwise
        (fun a b => valLe desc a b = true) by
    exact h es [] (by simp)
  intro l
  induction l with
  | nil =>
    intro acc hacc
    simpa using hacc
  | cons e es ih =>
    intro acc hacc
    exact ih _ (pairwise_insertSorted _ (valLe_total desc) (valLe_trans desc) e acc hacc)

theorem exceptOkBind {α β : Type} (a : α) (f : α → Except String β) :
    (Except.ok a >>= f) = f a := rfl

theorem exceptErrBind {α β : Type} (e : String) (f : α → Except String β) :
    (Except.error e >>= f) = .error e := rfl

theorem exceptPure {α : Type} (a : α) : (pure a : Except String α) = .ok a := rfl

theorem colContains_of_hashable (v : Json) (df : DataFrame)
    (h : v.hashable = true) : ∃ b, colContains v df = .ok b := by
  cases v with
  | str c => exact ⟨df.cols.contains c, rfl⟩
  | null => exact ⟨false, rfl⟩
  | bool b => exact ⟨false, rfl⟩
  | num n => exact ⟨false, rfl⟩
  | arr xs => simp [Json.hashable] at h
  | obj o => simp [Json.hashable] at h

theorem colCheckStep_pass (v : Json) (df : DataFrame) (msg : String)
    (rest : Except String (Option String)) (h : colContains v df = .ok true) :
    colCheckStep v df msg rest = rest := by
  rw [colCheckStep]
  by_cases ht : v.truthy = true
  · simp [ht, h, exceptOkBind]
  · simp [ht]

theorem colCheckStep_skip (v : Json) (df : DataFrame) (msg : String)
    (rest : Except String (Option String)) (ht : v.truthy = false) :
    colCheckStep v df msg rest = rest := by
  rw [colCheckStep]
  simp [ht]

theorem colCheckStep_reject (v : Json) (df : DataFrame) (msg : String)
    (rest : Except String (Option String)) (ht : v.truthy = true)
    (h : colContains v df = .ok false) :
    colCheckStep v df msg rest = .ok (some msg) := by
  rw [colCheckStep]
  simp [ht, h, exceptOkBind, exceptPure]

theorem colCheckStep_raise (v : Json) (df : DataFrame) (msg : String)
    (rest : Except String (Option String)) (e : String) (ht : v.truthy = true)
    (h : colContains v df = .error e) :
    colCheckStep v df msg rest = .error e := by
  rw [colCheckStep]
  simp [ht, h, exceptErrBind]

/-- Symbolic evaluation of the grouped-sum plan on a loaded table with a
valid group column and an all-numeric metric column. -/
theorem execute_aggPlan (s : ExecState) (f : String) (df : DataFrame) (g m : String)
    (hf : f = "trades.csv" ∨ f = "holdings.csv")
    (hdf : getDataframe s (.str f) = some df)
    (hg : g ∈ df.cols) (hgne : g ≠ "") (hm : m ∈ df.cols)
    (hng : ∀ r ∈ df.rows, ∃ q, r.lookup m = some (Json.num q)) :
    executePlan s (aggPlan f g m) =
      .ok ⟨true, none, some (.dict ((groupKeys df.rows g).map
        (fun k => (k, metricSum (groupRows df.rows g k) m)))), some (aggPlan f g m)⟩ := by
  have hgc : df.cols.contains g = true := List.elem_eq_true_of_mem hg
  have hmc : df.cols.contains m = true := List.elem_eq_true_of_mem hm
  have hfok : jsonInStrs (.str f) ALLOWED_FILES = true := by
    rcases hf with rfl | rfl <;> rfl
  have hfmem : f ∈ ALLOWED_FILES := by
    rcases hf with rfl | rfl <;> decide
  have hgb : (g != "") = true := by simp [hgne]
  have hgp : colContains (.str g) df = .ok true := by simp [colContains, hg]
  have hmp : colContains (.str m) df = .ok true := by simp [colContains, hm]
  simp [executePlan, validatePlan, validatePlanCore, aggPlan, List.lookup, checkFilesLoop, hfok, hdf,
    validateOperationChecks, jsonInStrs, checkColumnsLoop, checkColumnsFile,
    metricPart, filtersPart, colCheckStep_pass _ _ _ _ hgp,
    colCheckStep_pass _ _ _ _ hmp,
    Json.truthy, hgc, hmc, hgb, hg, hm, hfmem, Json.eqb, execBody,
    runOperation, requireCol,
    groupAggLoop_sum df.rows g m hng, sortStep, limitStep,
    ALLOWED_OPERATIONS, ALLOWED_AGGREGATIONS,
    exceptOkBind, Except.map_ok]

/-- Symbolic evaluation of the ungrouped sum plan: the scalar total. -/
theorem execute_aggPlanNoGroup (s : ExecState) (f : String) (df : DataFrame) (m : String)
    (hf : f = "trades.csv" ∨ f = "holdings.csv")
    (hdf : getDataframe s (.str f) = some df)
    (hm : m ∈ df.cols)
    (hng : ∀ r ∈ df.rows, ∃ q, r.lookup m = some (Json.num q)) :
    executePlan s (aggPlanNoGroup f m) =
      .ok ⟨true, none, some (.scalar (metricSum df.rows m)),
        some (aggPlanNoGroup f m)⟩ := by
  have hmc : df.cols.contains m = true := List.elem_eq_true_of_mem hm
  have hfok : jsonInStrs (.str f) ALLOWED_FILES = true := by
    rcases hf with rfl | rfl <;> rfl
  have hfmem : f ∈ ALLOWED_FILES := by
    rcases hf with rfl | rfl <;> decide
  have hmp : colContains (.str m) df = .ok true := by simp [colContains, hm]
  simp [executePlan, validatePlan, validatePlanCore, aggPlanNoGroup, List.lookup, checkFilesLoop,
    hfok, hdf, validateOperationChecks, jsonInStrs, checkColumnsLoop,
    checkColumnsFile, metricPart, filtersPart, colCheckStep_pass _ _ _ _ hmp,
    Json.truthy, hmc, hm, hfmem, Json.eqb, execBody,
    runOperation, requireCol, aggCells_sum df.rows m hng, sortStep, limitStep,
    ALLOWED_OPERATIONS, ALLOWED_AGGREGATIONS,
    exceptOkBind, Except.map_ok]

/-- The group keys are scalar, duplicate-free, and cover every row when
every row carries a scalar group cell. -/
theorem groupKeys_facts (rows : List Row) (g : String)
    (hsc : ∀ r ∈ rows, ∃ v, r.lookup g = some v ∧ v.isScalar = true) :
    (∀ k ∈ groupKeys rows g, k.isScalar = true) ∧
    (groupKeys rows g).Pairwise (fun a b => a ≠ b) ∧
    (∀ r ∈ rows, ∃ v, r.lookup g = some v ∧ v ∈ groupKeys rows g) := by
  have hall : ∀ x ∈ rows.filterMap (fun r => r.lookup g), x.isScalar = true := by
    intro x hx
    rcases List.mem_filterMap.mp hx with ⟨r, hr, hlx⟩
    rcases hsc r hr with ⟨v, hv, hvs⟩
    rw [hv] at hlx
    injection hlx with h
    rw [← h]
    exact hvs
  refine ⟨?_, ?_, ?_⟩
  · intro k hk
    exact hall k (mem_of_mem_dedupFirst hk)
  · exact dedupFirst_pairwise_ne _ hall
  · intro r hr
    rcases hsc r hr with ⟨v, hv, hvs⟩
    exact ⟨v, hv, mem_dedupFirst_of_mem hvs (List.mem_filterMap.mpr ⟨r, hr, hv⟩)⟩

/-! ## Claim theorems -/

/-- Claim C1: for every loaded table, every grouping column whose cells are
present scalars and every numeric metric column, the plan
`{files:[table], operation:aggregate, metric, aggregation:sum, group_by}`
succeeds and returns a mapping whose value at each group key equals the
sum of the metric over the rows of that group; the sum of the mapping's
values equals the result of the same plan without the group-by.  On the
holdings example table the plan returns `{"A": 120, "B": 50}`. -/
theorem C1_grouped_sum :
    (∀ (s : ExecState) (f : String) (df : DataFrame) (g m : String),
      (f = "trades.csv" ∨ f = "holdings.csv") →
      getDataframe s (.str f) = some df →
      g ∈ df.cols → g ≠ "" → m ∈ df.cols →
      (∀ r ∈ df.rows, ∃ v, r.lookup g = some v ∧ v.isScalar = true) →
      (∀ r ∈ df.rows, ∃ q, r.lookup m = some (Json.num q)) →
      ∃ es,
        executePlan s (aggPlan f g m) =
          .ok ⟨true, none, some (.dict es), some (aggPlan f g m)⟩ ∧
        (∀ kv ∈ es, kv.2 = metricSum (groupRows df.rows g kv.1) m) ∧
        (es.map (fun kv => kv.2)).sum = metricSum df.rows m ∧
        executePlan s (aggPlanNoGroup f m) =
          .ok ⟨true, none, some (.scalar (metricSum df.rows m)),
            some (aggPlanNoGroup f m)⟩) ∧
    executePlan demoState demoPlan =
      .ok ⟨true, none, some (.dict [(.str "A", 120), (.str "B", 50)]),
        some demoPlan⟩ := by
  constructor
  · intro s f df g m hf hdf hg hgne hm hsc hng
    refine ⟨(groupKeys df.rows g).map
      (fun k => (k, metricSum (groupRows df.rows g k) m)), ?_, ?_, ?_, ?_⟩
    · exact execute_aggPlan s f df g m hf hdf hg hgne hm hng
    · intro kv hkv
      rcases List.mem_map.mp hkv with ⟨k, hk, rfl⟩
      rfl
    · rcases groupKeys_facts df.rows g hsc with ⟨h1, h2, h3⟩
      rw [List.map_map]
      exact metricSum_partition g m (groupKeys df.rows g) df.rows h1 h2 h3
    · exact execute_aggPlanNoGroup s f df m hf hdf hm hng
  · rfl

/-- Witness for C1: the universally quantified part applied to the demo
holdings table, metric `PL` grouped by `Fund`, with every hypothesis
discharged by evaluation. -/
theorem C1_grouped_sum_witness :
    (("holdings.csv" : String) = "trades.csv" ∨ ("holdings.csv" : String) = "holdings.csv") ∧
    getDataframe demoState (.str "holdings.csv") = some holdingsDemo ∧
    "Fund" ∈ holdingsDemo.cols ∧ ("Fund" : String) ≠ "" ∧ "PL" ∈ holdingsDemo.cols ∧
    (∀ r ∈ holdingsDemo.rows, ∃ v, r.lookup "Fund" = some v ∧ v.isScalar = true) ∧
    (∀ r ∈ holdingsDemo.rows, ∃ q, r.lookup "PL" = some (Json.num q)) ∧
    (∃ es,
      executePlan demoState (aggPlan "holdings.csv" "Fund" "PL") =
        .ok ⟨true, none, some (.dict es), some (aggPlan "holdings.csv" "Fund" "PL")⟩ ∧
      (∀ kv ∈ es, kv.2 = metricSum (groupRows holdingsDemo.rows "Fund" kv.1) "PL") ∧
      (es.map (fun kv => kv.2)).sum = metricSum holdingsDemo.rows "PL" ∧
      executePlan demoState (aggPlanNoGroup "holdings.csv" "PL") =
        .ok ⟨true, none, some (.scalar (metricSum holdingsDemo.rows "PL")),
          some (aggPlanNoGroup "holdings.csv" "PL")⟩) := by
  have hsc : ∀ r ∈ holdingsDemo.rows, ∃ v, r.lookup "Fund" = some v ∧ v.isScalar = true := by
    intro r hr
    simp [holdingsDemo] at hr
    rcases hr with rfl | rfl | rfl
    · exact ⟨.str "A", rfl, rfl⟩
    · exact ⟨.str "B", rfl, rfl⟩
    · exact ⟨.str "A", rfl, rfl⟩
  have hng : ∀ r ∈ holdingsDemo.rows, ∃ q, r.lookup "PL" = some (Json.num q) := by
    intro r hr
    simp [holdingsDemo] at hr
    rcases hr with rfl | rfl | rfl
    · exact ⟨100, rfl⟩
    · exact ⟨50, rfl⟩
    · exact ⟨20, rfl⟩
  exact ⟨Or.inr rfl, rfl, by decide, by decide, by decide, hsc, hng,
    C1_grouped_sum.1 demoState "holdings.csv" holdingsDemo "Fund" "PL"
      (Or.inr rfl) rfl (by decide) (by decide) (by decide) hsc hng⟩

/-! ## Validator-walk lemmas (claims C2-C6) -/

theorem append_ne_empty (a b : String) (h : a.length ≠ 0) : a ++ b ≠ "" := by
  intro he
  have h2 := congrArg String.length he
  rw [String.length_append] at h2
  have h0 : ("" : String).length = 0 := rfl
  rw [h0] at h2
  omega

theorem append_len_ne (a b : String) (h : a.length ≠ 0) : (a ++ b).length ≠ 0 := by
  rw [String.length_append]
  omega

theorem checkFilesLoop_msg_ne (s : ExecState) :
    ∀ fs msg, checkFilesLoop s fs = some msg → msg ≠ "" := by
  intro fs
  induction fs with
  | nil => intro msg h; simp [checkFilesLoop] at h
  | cons f fs ih =>
    intro msg h
    rw [checkFilesLoop] at h
    cases hw : jsonInStrs f ALLOWED_FILES with
    | false =>
      simp [hw] at h
      rw [← h]
      exact append_ne_empty _ _ (append_len_ne _ _ (by decide))
    | true =>
      cases hdf : getDataframe s f with
      | none =>
        simp [hw, hdf] at h
        rw [← h]
        exact append_ne_empty _ _ (append_len_ne _ _ (by decide))
      | some df =>
        simp [hw, hdf] at h
        exact ih msg h

theorem checkFilesLoop_none (s : ExecState) :
    ∀ fs, checkFilesLoop s fs = none ↔
      ∀ f ∈ fs, jsonInStrs f ALLOWED_FILES = true ∧ ∃ df, getDataframe s f = some df := by
  intro fs
  induction fs with
  | nil => simp [checkFilesLoop]
  | cons f fs ih =>
    rw [checkFilesLoop, List.forall_mem_cons]
    cases hw : jsonInStrs f ALLOWED_FILES with
    | false => simp [hw]
    | true =>
      cases hdf : getDataframe s f with
      | none => simp [hw, hdf]
      | some df => simp [hw, hdf, ih]

theorem checkFilesLoop_some_of_bad (s : ExecState) (fs : List Json)
    (h : ∃ f ∈ fs, ¬(jsonInStrs f ALLOWED_FILES = true ∧ ∃ df, getDataframe s f = some df)) :
    ∃ msg, checkFilesLoop s fs = some msg ∧ msg ≠ "" := by
  cases hc : checkFilesLoop s fs with
  | none =>
    rcases h with ⟨f, hf, hbad⟩
    exact absurd ((checkFilesLoop_none s fs).mp hc f hf) hbad
  | some msg => exact ⟨msg, rfl, checkFilesLoop_msg_ne s fs msg hc⟩


theorem validateOperationChecks_msg_ne (op : Json) (kvs : Plan) (msg : String)
    (h : validateOperationChecks op kvs = some msg) : msg ≠ "" := by
  rw [validateOperationChecks] at h
  cases hw : jsonInStrs op ALLOWED_OPERATIONS with
  | false =>
    simp [hw] at h
    rw [← h]
    exact append_ne_empty _ _ (append_len_ne _ _ (by decide))
  | true =>
    by_cases he : op.eqb (.str "aggregate") = true
    · simp [hw, he] at h
      cases hag : kvs.lookup "aggregation" with
      | none =>
        simp [hag] at h
        rw [← h]
        decide
      | some ag =>
        cases haw : jsonInStrs ag ALLOWED_AGGREGATIONS with
        | false =>
          simp [hag, haw] at h
          rw [← h]
          exact append_ne_empty _ _ (append_len_ne _ _ (by decide))
        | true => simp [hag, haw] at h
    · simp [hw, he] at h

theorem validateOperationChecks_bad_op (op : Json) (kvs : Plan)
    (h : jsonInStrs op ALLOWED_OPERATIONS = false) :
    ∃ msg, validateOperationChecks op kvs = some msg ∧ msg ≠ "" := by
  rw [validateOperationChecks, h]
  simp only [Bool.not_false, if_true]
  exact ⟨_, rfl, append_ne_empty _ _ (append_len_ne _ _ (by decide))⟩

theorem validateOperationChecks_bad_agg (kvs : Plan)
    (h : kvs.lookup "aggregation" = none ∨
      ∃ ag, kvs.lookup "aggregation" = some ag ∧ jsonInStrs ag ALLOWED_AGGREGATIONS = false) :
    ∃ msg, validateOperationChecks (.str "aggregate") kvs = some msg ∧ msg ≠ "" := by
  have hw : jsonInStrs (.str "aggregate") ALLOWED_OPERATIONS = true := by decide
  have he : (Json.str "aggregate").eqb (.str "aggregate") = true := by decide
  rcases h with hag | ⟨ag, hag, haw⟩
  · rw [validateOperationChecks, hw, hag]
    simp only [Bool.not_true, Bool.false_eq_true, if_false, he, if_true]
    exact ⟨_, rfl, by decide⟩
  · rw [validateOperationChecks, hw, hag]
    simp only [Bool.not_true, Bool.false_eq_true, if_false, he, if_true, haw,
      Bool.not_false]
    exact ⟨_, rfl, append_ne_empty _ _ (append_len_ne _ _ (by decide))⟩


theorem checkFiltersItems_wf (df : DataFrame) (fname : String) :
    ∀ items, (∀ x ∈ items, ∃ o, x = Json.obj o ∧
        ∀ col, o.lookup "column" = some col → col.hashable = true) →
      ∃ r, checkFiltersItems df fname items = .ok r ∧
        (∀ msg, r = some msg → msg ≠ "") := by
  intro items
  induction items with
  | nil =>
    intro _
    exact ⟨none, rfl, by simp⟩
  | cons item rest ih =>
    intro h
    rcases h item (List.mem_cons_self _ _) with ⟨o, rfl, hhash⟩
    rcases ih (fun x hx => h x (List.mem_cons_of_mem _ hx)) with ⟨r, hr, hne⟩
    rw [checkFiltersItems]
    cases hl : o.lookup "column" with
    | none =>
      refine ⟨r, ?_, hne⟩
      simp [pyContainsColumn, hl, exceptOkBind, exceptPure, hr]
    | some col =>
      rcases colContains_of_hashable col df (hhash col hl) with ⟨b, hb⟩
      cases b with
      | false =>
        refine ⟨some ("Filter column '" ++ col.pyStr ++ "' not found in " ++ fname), ?_, ?_⟩
        · simp [pyContainsColumn, pyGetColumnKey, hl, hb, exceptOkBind, exceptPure]
        · intro msg hmsg
          injection hmsg with hmsg
          rw [← hmsg]
          exact append_ne_empty _ _ (append_len_ne _ _ (append_len_ne _ _ (by decide)))
      | true =>
        refine ⟨r, ?_, hne⟩
        simp [pyContainsColumn, pyGetColumnKey, hl, hb, exceptOkBind, exceptPure, hr]

theorem checkFiltersItems_rejects (df : DataFrame) (fname : String) :
    ∀ items, (∀ x ∈ items, ∃ o, x = Json.obj o ∧
        ∀ col, o.lookup "column" = some col → col.hashable = true) →
      (∃ o col, Json.obj o ∈ items ∧ o.lookup "column" = some col ∧
        colContains col df = .ok false) →
      ∃ msg, checkFiltersItems df fname items = .ok (some msg) ∧ msg ≠ "" := by
  intro items
  induction items with
  | nil =>
    intro _ hbad
    rcases hbad with ⟨o, col, hmem, _⟩
    simp at hmem
  | cons item rest ih =>
    intro h hbad
    rcases h item (List.mem_cons_self _ _) with ⟨o0, rfl, hhash0⟩
    have hwrest := fun x hx => h x (List.mem_cons_of_mem _ hx)
    rw [checkFiltersItems]
    cases hl : o0.lookup "column" with
    | none =>
      rcases hbad with ⟨o, col, hmem, hlo, hcm⟩
      rcases List.mem_cons.mp hmem with heq | hmem2
      · injection heq with heq
        rw [heq] at hlo
        rw [hl] at hlo
        exact Option.noConfusion hlo
      · rcases ih hwrest ⟨o, col, hmem2, hlo, hcm⟩ with ⟨msg, hmsg, hne⟩
        refine ⟨msg, ?_, hne⟩
        simp [pyContainsColumn, hl, exceptOkBind, exceptPure, hmsg]
    | some col0 =>
      rcases colContains_of_hashable col0 df (hhash0 col0 hl) with ⟨b, hb⟩
      cases b with
      | false =>
        refine ⟨"Filter column '" ++ col0.pyStr ++ "' not found in " ++ fname, ?_, ?_⟩
        · simp [pyContainsColumn, pyGetColumnKey, hl, hb, exceptOkBind, exceptPure]
        · exact append_ne_empty _ _ (append_len_ne _ _ (append_len_ne _ _ (by decide)))
      | true =>
        rcases hbad with ⟨o, col, hmem, hlo, hcm⟩
        rcases List.mem_cons.mp hmem with heq | hmem2
        · injection heq with heq
          rw [heq] at hlo
          rw [hl] at hlo
          injection hlo with hlo
          rw [hlo] at hb
          rw [hb] at hcm
          injection hcm with hcm
          exact Bool.noConfusion hcm
        · rcases ih hwrest ⟨o, col, hmem2, hlo, hcm⟩ with ⟨msg, hmsg, hne⟩
          refine ⟨msg, ?_, hne⟩
          simp [pyContainsColumn, pyGetColumnKey, hl, hb, exceptOkBind, exceptPure, hmsg]

theorem filtersPart_wf (df : DataFrame) (kvs : Plan) (fname : String)
    (hwf : wfFilters kvs) :
    ∃ r, filtersPart df kvs fname = .ok r ∧ (∀ msg, r = some msg → msg ≠ "") := by
  rw [filtersPart]
  cases hfl : kvs.lookup "filters" with
  | none => exact ⟨none, rfl, by simp⟩
  | some fv =>
    rw [wfFilters, hfl] at hwf
    cases fv with
    | arr items => exact checkFiltersItems_wf df fname items hwf
    | null => exact absurd hwf (by simp)
    | bool b => exact absurd hwf (by simp)
    | num n => exact absurd hwf (by simp)
    | str st => exact absurd hwf (by simp)
    | obj o => exact absurd hwf (by simp)

theorem filtersPart_rejects (df : DataFrame) (kvs : Plan) (fname : String)
    (hwf : wfFilters kvs)
    (hbad : ∃ items o col, kvs.lookup "filters" = some (.arr items) ∧
      Json.obj o ∈ items ∧ o.lookup "column" = some col ∧
      colContains col df = .ok false) :
    ∃ msg, filtersPart df kvs fname = .ok (some msg) ∧ msg ≠ "" := by
  rcases hbad with ⟨items, o, col, hfl, hmem, hlo, hcm⟩
  rw [filtersPart, hfl]
  rw [wfFilters, hfl] at hwf
  exact checkFiltersItems_rejects df fname items hwf ⟨o, col, hmem, hlo, hcm⟩

theorem metricPart_eq_some (df : DataFrame) (kvs : Plan) (fname : String)
    (mv : Json) (hm : kvs.lookup "metric" = some mv) :
    metricPart df kvs fname =
      colCheckStep mv df ("Column '" ++ mv.pyStr ++ "' not found in " ++ fname)
        (filtersPart df kvs fname) := by
  rw [metricPart, hm]

theorem metricPart_eq_none (df : DataFrame) (kvs : Plan) (fname : String)
    (hm : kvs.lookup "metric" = none) :
    metricPart df kvs fname = filtersPart df kvs fname := by
  rw [metricPart, hm]

theorem checkColumnsFile_eq_some (df : DataFrame) (kvs : Plan) (fname : String)
    (gv : Json) (hg : kvs.lookup "group_by" = some gv) :
    checkColumnsFile df kvs fname =
      colCheckStep gv df ("Column '" ++ gv.pyStr ++ "' not found in " ++ fname)
        (metricPart df kvs fname) := by
  rw [checkColumnsFile, hg]

theorem checkColumnsFile_eq_none (df : DataFrame) (kvs : Plan) (fname : String)
    (hg : kvs.lookup "group_by" = none) :
    checkColumnsFile df kvs fname = metricPart df kvs fname := by
  rw [checkColumnsFile, hg]

theorem metricPart_wf (df : DataFrame) (kvs : Plan) (fname : String)
    (hwf : wfFilters kvs)
    (hmr : ∀ mv, kvs.lookup "metric" = some mv → mv.truthy = true →
      mv.hashable = true) :
    ∃ r, metricPart df kvs fname = .ok r ∧ (∀ msg, r = some msg → msg ≠ "") := by
  cases hm : kvs.lookup "metric" with
  | none =>
    rw [metricPart_eq_none df kvs fname hm]
    exact filtersPart_wf df kvs fname hwf
  | some mv =>
    rw [metricPart_eq_some df kvs fname mv hm]
    cases ht : mv.truthy with
    | false =>
      rw [colCheckStep_skip _ _ _ _ ht]
      exact filtersPart_wf df kvs fname hwf
    | true =>
      rcases colContains_of_hashable mv df (hmr mv hm ht) with ⟨b, hb⟩
      cases b with
      | false =>
        rw [colCheckStep_reject _ _ _ _ ht hb]
        refine ⟨some ("Column '" ++ mv.pyStr ++ "' not found in " ++ fname), rfl, ?_⟩
        intro msg hmsg
        injection hmsg with hmsg
        rw [← hmsg]
        exact append_ne_empty _ _ (append_len_ne _ _ (append_len_ne _ _ (by decide)))
      | true =>
        rw [colCheckStep_pass _ _ _ _ hb]
        exact filtersPart_wf df kvs fname hwf

theorem metricPart_rejects (df : DataFrame) (kvs : Plan) (fname : String)
    (hwf : wfFilters kvs)
    (hmr : ∀ mv, kvs.lookup "metric" = some mv → mv.truthy = true →
      mv.hashable = true)
    (hbad : (∃ mv, kvs.lookup "metric" = some mv ∧ mv.truthy = true ∧
        colContains mv df = .ok false) ∨
      (∃ items o col, kvs.lookup "filters" = some (.arr items) ∧ Json.obj o ∈ items ∧
        o.lookup "column" = some col ∧ colContains col df = .ok false)) :
    ∃ msg, metricPart df kvs fname = .ok (some msg) ∧ msg ≠ "" := by
  cases hm : kvs.lookup "metric" with
  | none =>
    rw [metricPart_eq_none df kvs fname hm]
    rcases hbad with ⟨mv, hlm, _, _⟩ | h3
    · rw [hm] at hlm
      exact Option.noConfusion hlm
    · exact filtersPart_rejects df kvs fname hwf h3
  | some mv =>
    rw [metricPart_eq_some df kvs fname mv hm]
    cases ht : mv.truthy with
    | false =>
      rw [colCheckStep_skip _ _ _ _ ht]
      rcases hbad with ⟨mv2, hlm, ht2, _⟩ | h3
      · rw [hm] at hlm
        injection hlm with hlm
        rw [← hlm] at ht2
        rw [ht] at ht2
        exact Bool.noConfusion ht2
      · exact filtersPart_rejects df kvs fname hwf h3
    | true =>
      rcases colContains_of_hashable mv df (hmr mv hm ht) with ⟨b, hb⟩
      cases b with
      | false =>
        rw [colCheckStep_reject _ _ _ _ ht hb]
        refine ⟨("Column '" ++ mv.pyStr ++ "' not found in " ++ fname), rfl, ?_⟩
        exact append_ne_empty _ _ (append_len_ne _ _ (append_len_ne _ _ (by decide)))
      | true =>
        rw [colCheckStep_pass _ _ _ _ hb]
        rcases hbad with ⟨mv2, hlm, _, hcm2⟩ | h3
        · rw [hm] at hlm
          injection hlm with hlm
          rw [← hlm] at hcm2
          rw [hb] at hcm2
          injection hcm2 with hcm2
          exact Bool.noConfusion hcm2
        · exact filtersPart_rejects df kvs fname hwf h3

theorem checkColumnsFile_wf (df : DataFrame) (kvs : Plan) (fname : String)
    (hwf : wfFilters kvs) (hcr : wfColumnRefs kvs) :
    ∃ r, checkColumnsFile df kvs fname = .ok r ∧
      (∀ msg, r = some msg → msg ≠ "") := by
  cases hg : kvs.lookup "group_by" with
  | none =>
    rw [checkColumnsFile_eq_none df kvs fname hg]
    exact metricPart_wf df kvs fname hwf hcr.2
  | some gv =>
    rw [checkColumnsFile_eq_some df kvs fname gv hg]
    cases ht : gv.truthy with
    | false =>
      rw [colCheckStep_skip _ _ _ _ ht]
      exact metricPart_wf df kvs fname hwf hcr.2
    | true =>
      rcases colContains_of_hashable gv df (hcr.1 gv hg ht) with ⟨b, hb⟩
      cases b with
      | false =>
        rw [colCheckStep_reject _ _ _ _ ht hb]
        refine ⟨some ("Column '" ++ gv.pyStr ++ "' not found in " ++ fname), rfl, ?_⟩
        intro msg hmsg
        injection hmsg with hmsg
        rw [← hmsg]
        exact append_ne_empty _ _ (append_len_ne _ _ (append_len_ne _ _ (by decide)))
      | true =>
        rw [colCheckStep_pass _ _ _ _ hb]
        exact metricPart_wf df kvs fname hwf hcr.2

theorem checkColumnsFile_rejects (df : DataFrame) (kvs : Plan) (fname : String)
    (hwf : wfFilters kvs) (hcr : wfColumnRefs kvs) (hbad : columnRefBad kvs df) :
    ∃ msg, checkColumnsFile df kvs fname = .ok (some msg) ∧ msg ≠ "" := by
  cases hg : kvs.lookup "group_by" with
  | none =>
    rw [checkColumnsFile_eq_none df kvs fname hg]
    have hbad2 : (∃ mv, kvs.lookup "metric" = some mv ∧ mv.truthy = true ∧
        colContains mv df = .ok false) ∨
        (∃ items o col, kvs.lookup "filters" = some (.arr items) ∧ Json.obj o ∈ items ∧
          o.lookup "column" = some col ∧ colContains col df = .ok false) := by
      rcases hbad with ⟨gv, hlg, _, _⟩ | h2 | h3
      · rw [hg] at hlg
        exact Option.noConfusion hlg
      · exact Or.inl h2
      · exact Or.inr h3
    exact metricPart_rejects df kvs fname hwf hcr.2 hbad2
  | some gv =>
    rw [checkColumnsFile_eq_some df kvs fname gv hg]
    cases ht : gv.truthy with
    | false =>
      rw [colCheckStep_skip _ _ _ _ ht]
      have hbad2 : (∃ mv, kvs.lookup "metric" = some mv ∧ mv.truthy = true ∧
          colContains mv df = .ok false) ∨
          (∃ items o col, kvs.lookup "filters" = some (.arr items) ∧ Json.obj o ∈ items ∧
            o.lookup "column" = some col ∧ colContains col df = .ok false) := by
        rcases hbad with ⟨gv2, hlg, ht2, _⟩ | h2 | h3
        · rw [hg] at hlg
          injection hlg with hlg
          rw [← hlg] at ht2
          rw [ht] at ht2
          exact Bool.noConfusion ht2
        · exact Or.inl h2
        · exact Or.inr h3
      exact metricPart_rejects df kvs fname hwf hcr.2 hbad2
    | true =>
      rcases colContains_of_hashable gv df (hcr.1 gv hg ht) with ⟨b, hb⟩
      cases b with
      | false =>
        rw [colCheckStep_reject _ _ _ _ ht hb]
        refine ⟨("Column '" ++ gv.pyStr ++ "' not found in " ++ fname), rfl, ?_⟩
        exact append_ne_empty _ _ (append_len_ne _ _ (append_len_ne _ _ (by decide)))
      | true =>
        rw [colCheckStep_pass _ _ _ _ hb]
        have hbad2 : (∃ mv, kvs.lookup "metric" = some mv ∧ mv.truthy = true ∧
            colContains mv df = .ok false) ∨
            (∃ items o col, kvs.lookup "filters" = some (.arr items) ∧ Json.obj o ∈ items ∧
              o.lookup "column" = some col ∧ colContains col df = .ok false) := by
          rcases hbad with ⟨gv2, hlg, _, hcm2⟩ | h2 | h3
          · rw [hg] at hlg
            injection hlg with hlg
            rw [← hlg] at hcm2
            rw [hb] at hcm2
            injection hcm2 with hcm2
            exact Bool.noConfusion hcm2
          · exact Or.inl h2
          · exact Or.inr h3
        exact metricPart_rejects df kvs fname hwf hcr.2 hbad2

theorem checkColumnsLoop_wf (s : ExecState) (kvs : Plan)
    (hwf : wfFilters kvs) (hcr : wfColumnRefs kvs) :
    ∀ fs, (∀ f ∈ fs, ∃ df, getDataframe s f = some df) →
      ∃ r, checkColumnsLoop s kvs fs = .ok r ∧ (∀ msg, r = some msg → msg ≠ "") := by
  intro fs
  induction fs with
  | nil =>
    intro _
    exact ⟨none, rfl, by simp⟩
  | cons f fs ih =>
    intro h
    rcases h f (List.mem_cons_self _ _) with ⟨df, hdf⟩
    rcases checkColumnsFile_wf df kvs f.pyStr hwf hcr with ⟨r0, hr0, hne0⟩
    rw [checkColumnsLoop, hdf]
    cases r0 with
    | some m => exact ⟨some m, by simp [hr0, exceptOkBind, exceptPure], hne0⟩
    | none =>
      rcases ih (fun g hg => h g (List.mem_cons_of_mem _ hg)) with ⟨r, hr, hne⟩
      exact ⟨r, by simp [hr0, exceptOkBind, hr], hne⟩

theorem checkColumnsLoop_rejects (s : ExecState) (kvs : Plan)
    (hwf : wfFilters kvs) (hcr : wfColumnRefs kvs) :
    ∀ fs, (∀ f ∈ fs, ∃ df, getDataframe s f = some df) →
      (∃ f ∈ fs, ∃ dg, getDataframe s f = some dg ∧ columnRefBad kvs dg) →
      ∃ msg, checkColumnsLoop s kvs fs = .ok (some msg) ∧ msg ≠ "" := by
  intro fs
  induction fs with
  | nil =>
    intro _ hbad
    rcases hbad with ⟨f, hf, _⟩
    simp at hf
  | cons f fs ih =>
    intro h hbad
    rcases h f (List.mem_cons_self _ _) with ⟨df, hdf⟩
    rw [checkColumnsLoop, hdf]
    rcases checkColumnsFile_wf df kvs f.pyStr hwf hcr with ⟨r0, hr0, hne0⟩
    cases r0 with
    | some m => exact ⟨m, by simp [hr0, exceptOkBind, exceptPure], hne0 m rfl⟩
    | none =>
      rcases hbad with ⟨g, hgmem, dg, hdg, hbadg⟩
      rcases List.mem_cons.mp hgmem with rfl | hmem2
      · rw [hdf] at hdg
        injection hdg with hdg
        rw [← hdg] at hbadg
        rcases checkColumnsFile_rejects df kvs g.pyStr hwf hcr hbadg with ⟨m, hm, _⟩
        rw [hr0] at hm
        injection hm with hm
        exact Option.noConfusion hm
      · rcases ih (fun g2 hg2 => h g2 (List.mem_cons_of_mem _ hg2))
          ⟨g, hmem2, dg, hdg, hbadg⟩ with ⟨msg, hmsg, hne⟩
        exact ⟨msg, by simp [hr0, exceptOkBind, hmsg], hne⟩

theorem executePlan_of_reject (s : ExecState) (kvs : Plan) (msg : String)
    (h : validatePlan s kvs = .ok (false, msg)) :
    executePlan s kvs = .ok ⟨false, some msg, none, none⟩ := by
  simp [executePlan, h]



theorem validatePlan_eq_core (s : ExecState) (kvs : Plan) (fs : List Json) (op : Json)
    (hf : kvs.lookup "files" = some (.arr fs)) (ho : kvs.lookup "operation" = some op) :
    validatePlan s kvs = validatePlanCore s kvs fs op := by
  rw [validatePlan]
  simp only [hf, ho]

theorem validatePlanCore_true_inv (s : ExecState) (kvs : Plan) (fs : List Json)
    (op : Json) (msg : String)
    (h : validatePlanCore s kvs fs op = .ok (true, msg)) :
    checkFilesLoop s fs = none ∧ validateOperationChecks op kvs = none ∧
      checkColumnsLoop s kvs fs = .ok none ∧ msg = "" := by
  rw [validatePlanCore] at h
  cases hcf : checkFilesLoop s fs with
  | some m => simp only [hcf] at h; simp at h
  | none =>
    simp only [hcf] at h
    cases hvo : validateOperationChecks op kvs with
    | some m => simp only [hvo] at h; simp at h
    | none =>
      simp only [hvo] at h
      cases hcc : checkColumnsLoop s kvs fs with
      | error e => simp only [hcc] at h; simp at h
      | ok r =>
        simp only [hcc] at h
        cases r with
        | some m => simp at h
        | none =>
          simp at h
          exact ⟨rfl, rfl, rfl, h.symm⟩

theorem validatePlan_true_inv (s : ExecState) (kvs : Plan) (msg : String)
    (h : validatePlan s kvs = .ok (true, msg)) :
    ∃ fs op, kvs.lookup "files" = some (.arr fs) ∧
      kvs.lookup "operation" = some op ∧
      checkFilesLoop s fs = none ∧
      validateOperationChecks op kvs = none ∧
      checkColumnsLoop s kvs fs = .ok none ∧ msg = "" := by
  rw [validatePlan] at h
  cases hf : kvs.lookup "files" with
  | none => simp only [hf] at h; simp at h
  | some files =>
    simp only [hf] at h
    cases ho : kvs.lookup "operation" with
    | none => simp only [ho] at h; simp at h
    | some op =>
      simp only [ho] at h
      cases files with
      | arr fs =>
        rcases validatePlanCore_true_inv s kvs fs op msg h with ⟨h1, h2, h3, h4⟩
        exact ⟨fs, op, rfl, rfl, h1, h2, h3, h4⟩
      | null => simp at h
      | bool b => simp at h
      | num n => simp at h
      | str st => simp at h
      | obj o => simp at h


theorem core_reject_files (s : ExecState) (kvs : Plan) (fs : List Json) (op : Json)
    (m : String) (hm : checkFilesLoop s fs = some m) :
    validatePlanCore s kvs fs op = .ok (false, m) := by
  simp only [validatePlanCore, hm]

theorem core_reject_ops (s : ExecState) (kvs : Plan) (fs : List Json) (op : Json)
    (m : String) (hcf : checkFilesLoop s fs = none)
    (hm : validateOperationChecks op kvs = some m) :
    validatePlanCore s kvs fs op = .ok (false, m) := by
  simp only [validatePlanCore, hcf, hm]

theorem core_reject_cols (s : ExecState) (kvs : Plan) (fs : List Json) (op : Json)
    (m : String) (hcf : checkFilesLoop s fs = none)
    (hvo : validateOperationChecks op kvs = none)
    (hm : checkColumnsLoop s kvs fs = .ok (some m)) :
    validatePlanCore s kvs fs op = .ok (false, m) := by
  simp only [validatePlanCore, hcf, hvo, hm]

/-- Claim C2, amended: for every plan whose `files` field is a list,
whose `filters` field (if present) is a list of objects with hashable
`column` values, and whose truthy group-by/metric values are hashable
(unhashable references make the real validator raise `TypeError`
instead), the plan is rejected during validation with `success=false` —
before any filtering, grouping or aggregation — whenever its operation
is outside the allowed whitelist, or its operation is `aggregate` with a
missing or disallowed aggregation, or a membership test of a (truthy)
referenced group-by/metric column or a filter entry's `column` against
some listed table's schema comes back negative.  (As stated the original
claim is false: an `aggregation` outside the whitelist is only checked
when the operation is `aggregate` — see the counterexample.) -/
theorem C2_validation_rejects : ∀ (s : ExecState) (kvs : Plan) (fs : List Json),
    kvs.lookup "files" = some (.arr fs) →
    wfFilters kvs →
    wfColumnRefs kvs →
    ((∃ op, kvs.lookup "operation" = some op ∧ jsonInStrs op ALLOWED_OPERATIONS = false) ∨
     (kvs.lookup "operation" = some (.str "aggregate") ∧
       (kvs.lookup "aggregation" = none ∨
        ∃ ag, kvs.lookup "aggregation" = some ag ∧ jsonInStrs ag ALLOWED_AGGREGATIONS = false)) ∨
     (∃ f ∈ fs, ∀ df, getDataframe s f = some df → columnRefBad kvs df)) →
    ∃ msg, msg ≠ "" ∧ validatePlan s kvs = .ok (false, msg) ∧
      executePlan s kvs = .ok ⟨false, some msg, none, none⟩ := by
  intro s kvs fs hfiles hwf hcr hd
  have hval : ∃ msg, msg ≠ "" ∧ validatePlan s kvs = .ok (false, msg) := by
    cases ho : kvs.lookup "operation" with
    | none =>
      refine ⟨"Missing 'operation' field in plan", by decide, ?_⟩
      rw [validatePlan]
      simp only [hfiles, ho]
    | some op =>
      have hbridge := validatePlan_eq_core s kvs fs op hfiles ho
      cases hcf : checkFilesLoop s fs with
      | some m =>
        exact ⟨m, checkFilesLoop_msg_ne s fs m hcf,
          hbridge.trans (core_reject_files s kvs fs op m hcf)⟩
      | none =>
        have hload : ∀ f ∈ fs, ∃ df, getDataframe s f = some df :=
          fun f hf2 => ((checkFilesLoop_none s fs).mp hcf f hf2).2
        cases hvo : validateOperationChecks op kvs with
        | some m =>
          exact ⟨m, validateOperationChecks_msg_ne op kvs m hvo,
            hbridge.trans (core_reject_ops s kvs fs op m hcf hvo)⟩
        | none =>
          have hd3 : ∃ f ∈ fs, ∀ df, getDataframe s f = some df → columnRefBad kvs df := by
            rcases hd with ⟨op2, hop2, hbadop⟩ | ⟨hop2, hbadagg⟩ | h3
            · rw [ho] at hop2
              injection hop2 with hop2
              rw [← hop2] at hbadop
              rcases validateOperationChecks_bad_op op kvs hbadop with ⟨m, hm, _⟩
              rw [hvo] at hm
              exact Option.noConfusion hm
            · rw [ho] at hop2
              injection hop2 with hop2
              rcases validateOperationChecks_bad_agg kvs hbadagg with ⟨m, hm, _⟩
              rw [← hop2] at hm
              rw [hvo] at hm
              exact Option.noConfusion hm
            · exact h3
          rcases hd3 with ⟨f0, hf0, hbad0⟩
          rcases hload f0 hf0 with ⟨df0, hdf0⟩
          rcases checkColumnsLoop_rejects s kvs hwf hcr fs hload
            ⟨f0, hf0, df0, hdf0, hbad0 df0 hdf0⟩ with ⟨m, hm, hmne⟩
          exact ⟨m, hmne, hbridge.trans (core_reject_cols s kvs fs op m hcf hvo hm)⟩
  rcases hval with ⟨msg, hne, hv⟩
  exact ⟨msg, hne, hv, executePlan_of_reject s kvs msg hv⟩

/-- Claim C3, amended: the validator rejects every plan whose files list
contains an identifier that is not a known table or whose table is not
loaded, and validation passes only if every listed identifier is a known
loaded table; however an *empty* files list passes validation (the
original claim's non-emptiness requirement is false — see the
counterexample, where execution then fails with an `IndexError`). -/
theorem C3_files_subset_validation : ∀ (s : ExecState) (kvs : Plan) (fs : List Json),
    kvs.lookup "files" = some (.arr fs) →
    (((∃ f ∈ fs, ¬(jsonInStrs f ALLOWED_FILES = true ∧ ∃ df, getDataframe s f = some df)) →
      ∃ msg, msg ≠ "" ∧ validatePlan s kvs = .ok (false, msg) ∧
        executePlan s kvs = .ok ⟨false, some msg, none, none⟩) ∧
     (∀ msg, validatePlan s kvs = .ok (true, msg) →
       ∀ f ∈ fs, jsonInStrs f ALLOWED_FILES = true ∧ ∃ df, getDataframe s f = some df)) := by
  intro s kvs fs hfiles
  constructor
  · intro hbad
    have hval : ∃ msg, msg ≠ "" ∧ validatePlan s kvs = .ok (false, msg) := by
      cases ho : kvs.lookup "operation" with
      | none =>
        refine ⟨"Missing 'operation' field in plan", by decide, ?_⟩
        rw [validatePlan]
        simp only [hfiles, ho]
      | some op =>
        rcases checkFilesLoop_some_of_bad s fs hbad with ⟨m, hm, hne⟩
        exact ⟨m, hne, (validatePlan_eq_core s kvs fs op hfiles ho).trans
          (core_reject_files s kvs fs op m hm)⟩
    rcases hval with ⟨msg, hne, hv⟩
    exact ⟨msg, hne, hv, executePlan_of_reject s kvs msg hv⟩
  · intro msg hv f hf
    rcases validatePlan_true_inv s kvs msg hv with ⟨fs2, op, hf2, _, hcf, _, _, _⟩
    rw [hfiles] at hf2
    injection hf2 with hf2
    injection hf2 with hf2
    rw [← hf2] at hcf
    exact (checkFilesLoop_none s fs).mp hcf f hf


/-- Claim C6, amended: the list ALLOWED_OPERATIONS contains six values, so a
plan whose operation is `group_by`, `sort`, `filter` or `limit` *passes*
validation (contrary to the original claim); execution then assigns no
result and returns `success=false` with the caught
`NameError: name 'result' is not defined` (shown here for plans without
filter clauses). -/
theorem C6_extra_operations_pass_validation : ∀ (s : ExecState) (kvs : Plan) (op : String) (f : Json) (fs2 : List Json),
    kvs.lookup "operation" = some (.str op) →
    (op = "group_by" ∨ op = "sort" ∨ op = "filter" ∨ op = "limit") →
    kvs.lookup "files" = some (.arr (f :: fs2)) →
    kvs.lookup "filters" = none →
    validatePlan s kvs = .ok (true, "") →
    executePlan s kvs = .ok ⟨false, some "name 'result' is not defined", none, none⟩ := by
  intro s kvs op f fs2 hop hops hfiles hnofil hval
  rcases validatePlan_true_inv s kvs "" hval with ⟨fs3, op3, hf3, _, hcf, _, _, _⟩
  rw [hfiles] at hf3
  injection hf3 with hf3
  injection hf3 with hf3
  have hload := (checkFilesLoop_none s fs3).mp hcf
  rw [← hf3] at hload
  rcases (hload f (List.mem_cons_self _ _)).2 with ⟨df, hdf⟩
  have hro : runOperation df kvs = .ok none := by
    rw [runOperation]
    simp only [hop]
    rcases hops with rfl | rfl | rfl | rfl <;> rfl
  have hbody : execBody s kvs = .error "name 'result' is not defined" := by
    rw [execBody]
    simp only [hfiles, hdf, hnofil, hro, exceptOkBind, exceptPure]
  rw [executePlan, hval]
  simp only [hbody]

/-- Claim C4, amended: a plan with operation `aggregate` is rejected at
validation whenever its `aggregation` field is missing or outside the
allowed set.  (The original claim's requirement that a metric column be
present is false: the metric is validated only when present and truthy,
so an aggregate plan with no `metric` field passes validation and fails
only at execution — see the counterexample.) -/
theorem C4_aggregate_requires_aggregation : ∀ (s : ExecState) (kvs : Plan),
    kvs.lookup "operation" = some (.str "aggregate") →
    (kvs.lookup "aggregation" = none ∨
      ∃ ag, kvs.lookup "aggregation" = some ag ∧ jsonInStrs ag ALLOWED_AGGREGATIONS = false) →
    ∃ msg, msg ≠ "" ∧ validatePlan s kvs = .ok (false, msg) ∧
      executePlan s kvs = .ok ⟨false, some msg, none, none⟩ := by
  intro s kvs hop hbad
  have hval : ∃ msg, msg ≠ "" ∧ validatePlan s kvs = .ok (false, msg) := by
    cases hf : kvs.lookup "files" with
    | none =>
      refine ⟨"Missing 'files' field in plan", by decide, ?_⟩
      rw [validatePlan]
      simp only [hf]
    | some files =>
      cases files with
      | arr fs =>
        have hbridge := validatePlan_eq_core s kvs fs (.str "aggregate") hf hop
        cases hcf : checkFilesLoop s fs with
        | some m =>
          exact ⟨m, checkFilesLoop_msg_ne s fs m hcf,
            hbridge.trans (core_reject_files _ _ _ _ _ hcf)⟩
        | none =>
          rcases validateOperationChecks_bad_agg kvs hbad with ⟨m, hm, hne⟩
          exact ⟨m, hne, hbridge.trans (core_reject_ops _ _ _ _ _ hcf hm)⟩
      | null =>
        refine ⟨"'files' must be a list", by decide, ?_⟩
        rw [validatePlan]
        simp only [hf, hop]
      | bool b =>
        refine ⟨"'files' must be a list", by decide, ?_⟩
        rw [validatePlan]
        simp only [hf, hop]
      | num n =>
        refine ⟨"'files' must be a list", by decide, ?_⟩
        rw [validatePlan]
        simp only [hf, hop]
      | str st =>
        refine ⟨"'files' must be a list", by decide, ?_⟩
        rw [validatePlan]
        simp only [hf, hop]
      | obj o =>
        refine ⟨"'files' must be a list", by decide, ?_⟩
        rw [validatePlan]
        simp only [hf, hop]
  rcases hval with ⟨msg, hne, hv⟩
  exact ⟨msg, hne, hv, executePlan_of_reject s kvs msg hv⟩

/-- Claim C5, amended: for every plan whose `filters` field, when
present, is a list of JSON objects with hashable `column` values, and
whose truthy group-by/metric values are hashable, `_validate_plan`
returns a pass/fail result with a non-empty human-readable reason on
failure and never raises.  (The original claim — never raises for *any*
JSON object — is false in two ways shown by the counterexample: a
non-iterable `filters` value reached by the per-file loop raises a
`TypeError`, and an unhashable column reference such as `group_by=[1]`
makes `not in df.columns` raise `TypeError: unhashable type`.) -/
theorem C5_validator_total_on_wf_filters : ∀ (s : ExecState) (kvs : Plan),
    wfFilters kvs →
    wfColumnRefs kvs →
    ∃ b msg, validatePlan s kvs = .ok (b, msg) ∧ (b = false → msg ≠ "") := by
  intro s kvs hwf hcr
  cases hf : kvs.lookup "files" with
  | none =>
    exact ⟨false, "Missing 'files' field in plan",
      by rw [validatePlan]; simp only [hf], fun _ => by decide⟩
  | some files =>
    cases ho : kvs.lookup "operation" with
    | none =>
      exact ⟨false, "Missing 'operation' field in plan",
        by rw [validatePlan]; simp only [hf, ho], fun _ => by decide⟩
    | some op =>
      cases files with
      | arr fs =>
        have hbridge := validatePlan_eq_core s kvs fs op hf ho
        cases hcf : checkFilesLoop s fs with
        | some m =>
          exact ⟨false, m, hbridge.trans (core_reject_files _ _ _ _ _ hcf),
            fun _ => checkFilesLoop_msg_ne s fs m hcf⟩
        | none =>
          cases hvo : validateOperationChecks op kvs with
          | some m =>
            exact ⟨false, m, hbridge.trans (core_reject_ops _ _ _ _ _ hcf hvo),
              fun _ => validateOperationChecks_msg_ne op kvs m hvo⟩
          | none =>
            have hload : ∀ f ∈ fs, ∃ df, getDataframe s f = some df :=
              fun f hf2 => ((checkFilesLoop_none s fs).mp hcf f hf2).2
            rcases checkColumnsLoop_wf s kvs hwf hcr fs hload with ⟨r, hr, hne⟩
            cases r with
            | some m =>
              exact ⟨false, m, hbridge.trans (core_reject_cols _ _ _ _ _ hcf hvo hr),
                fun _ => hne m rfl⟩
            | none =>
              refine ⟨true, "", hbridge.trans ?_, fun hfalse => Bool.noConfusion hfalse⟩
              simp only [validatePlanCore, hcf, hvo, hr]
      | null =>
        exact ⟨false, "'files' must be a list",
          by rw [validatePlan]; simp only [hf, ho], fun _ => by decide⟩
      | bool b =>
        exact ⟨false, "'files' must be a list",
          by rw [validatePlan]; simp only [hf, ho], fun _ => by decide⟩
      | num n =>
        exact ⟨false, "'files' must be a list",
          by rw [validatePlan]; simp only [hf, ho], fun _ => by decide⟩
      | str st =>
        exact ⟨false, "'files' must be a list",
          by rw [validatePlan]; simp only [hf, ho], fun _ => by decide⟩
      | obj o =>
        exact ⟨false, "'files' must be a list",
          by rw [validatePlan]; simp only [hf, ho], fun _ => by decide⟩


/-! ## Counterexamples, remaining claims and witnesses -/

/-- A `count` plan carrying a disallowed aggregation value. -/
def c2BadAggPlan : Plan :=
  [("files", .arr [.str "holdings.csv"]),
   ("operation", .str "count"),
   ("aggregation", .str "bogus")]

/-- A plan whose operation is not in the whitelist. -/
def c2BadOpPlan : Plan :=
  [("files", .arr [.str "holdings.csv"]),
   ("operation", .str "explode")]

/-- Claim C2 counterexample: a plan whose `aggregation` is outside the
allowed whitelist but whose operation is `count` passes validation and
executes with `success=true` — refuting "always rejected before any data
is touched, with success=false". -/
theorem C2_counterexample :
    validatePlan demoState c2BadAggPlan = .ok (true, "") ∧
    executePlan demoState c2BadAggPlan =
      .ok ⟨true, none, some (.scalar 3), some c2BadAggPlan⟩ := ⟨rfl, rfl⟩

/-- Witness for C2: the amended theorem applied to a plan with the
unknown operation `explode` on the demo state. -/
theorem C2_validation_rejects_witness :
    (List.lookup "files" c2BadOpPlan = some (.arr [.str "holdings.csv"])) ∧
    wfFilters c2BadOpPlan ∧
    wfColumnRefs c2BadOpPlan ∧
    (List.lookup "operation" c2BadOpPlan = some (.str "explode") ∧
      jsonInStrs (.str "explode") ALLOWED_OPERATIONS = false) ∧
    (∃ msg, msg ≠ "" ∧ validatePlan demoState c2BadOpPlan = .ok (false, msg) ∧
      executePlan demoState c2BadOpPlan = .ok ⟨false, some msg, none, none⟩) := by
  refine ⟨rfl, by simp [wfFilters, c2BadOpPlan, List.lookup],
    ⟨?_, ?_⟩, ⟨rfl, by decide⟩, ?_⟩
  · intro v hv htr; simp [c2BadOpPlan, List.lookup] at hv
  · intro v hv htr; simp [c2BadOpPlan, List.lookup] at hv
  exact C2_validation_rejects demoState c2BadOpPlan [.str "holdings.csv"] rfl
    (by simp [wfFilters, c2BadOpPlan, List.lookup])
    ⟨fun v hv _ => by simp [c2BadOpPlan, List.lookup] at hv,
     fun v hv _ => by simp [c2BadOpPlan, List.lookup] at hv⟩
    (Or.inl ⟨.str "explode", rfl, by decide⟩)

/-- A plan with an empty files list. -/
def c3EmptyFilesPlan : Plan :=
  [("files", .arr []), ("operation", .str "count")]

/-- A plan naming an unknown table. -/
def c3BadFilePlan : Plan :=
  [("files", .arr [.str "nope.csv"]), ("operation", .str "count")]

/-- Claim C3 counterexample: the validator accepts an empty files list —
refuting "rejects every plan whose list of table identifiers is empty";
execution then fails with the caught `IndexError` from `plan['files'][0]`. -/
theorem C3_counterexample :
    validatePlan demoState c3EmptyFilesPlan = .ok (true, "") ∧
    executePlan demoState c3EmptyFilesPlan =
      .ok ⟨false, some "IndexError: list index out of range", none, none⟩ := ⟨rfl, rfl⟩

/-- Witness for C3: the amended theorem applied to a plan naming the
unknown table `nope.csv`. -/
theorem C3_files_subset_validation_witness :
    (List.lookup "files" c3BadFilePlan = some (.arr [.str "nope.csv"])) ∧
    (∃ f ∈ [Json.str "nope.csv"],
      ¬(jsonInStrs f ALLOWED_FILES = true ∧ ∃ df, getDataframe demoState f = some df)) ∧
    (∃ msg, msg ≠ "" ∧ validatePlan demoState c3BadFilePlan = .ok (false, msg) ∧
      executePlan demoState c3BadFilePlan = .ok ⟨false, some msg, none, none⟩) := by
  have hbad : ∃ f ∈ [Json.str "nope.csv"],
      ¬(jsonInStrs f ALLOWED_FILES = true ∧ ∃ df, getDataframe demoState f = some df) :=
    ⟨.str "nope.csv", List.mem_cons_self _ _, fun h => absurd h.1 (by decide)⟩
  exact ⟨rfl, hbad,
    (C3_files_subset_validation demoState c3BadFilePlan [.str "nope.csv"] rfl).1 hbad⟩

/-- An aggregate plan with no metric field. -/
def c4NoMetricPlan : Plan :=
  [("files", .arr [.str "holdings.csv"]),
   ("operation", .str "aggregate"),
   ("aggregation", .str "sum")]

/-- An aggregate plan with a disallowed aggregation. -/
def c4BadAggPlan : Plan :=
  [("files", .arr [.str "holdings.csv"]),
   ("operation", .str "aggregate"),
   ("aggregation", .str "median")]

/-- Claim C4 counterexample: an aggregate plan with no `metric` field
passes validation — refuting "a plan with operation aggregate but no
metric field is rejected at validation" — and fails only during
execution, with the caught `KeyError` from `df[None]`. -/
theorem C4_counterexample :
    validatePlan demoState c4NoMetricPlan = .ok (true, "") ∧
    executePlan demoState c4NoMetricPlan =
      .ok ⟨false, some "KeyError: None", none, none⟩ := ⟨rfl, rfl⟩

/-- Witness for C4: the amended theorem applied to an aggregate plan with
the disallowed aggregation `median`. -/
theorem C4_aggregate_requires_aggregation_witness :
    (List.lookup "operation" c4BadAggPlan = some (.str "aggregate")) ∧
    (∃ ag, List.lookup "aggregation" c4BadAggPlan = some ag ∧
      jsonInStrs ag ALLOWED_AGGREGATIONS = false) ∧
    (∃ msg, msg ≠ "" ∧ validatePlan demoState c4BadAggPlan = .ok (false, msg) ∧
      executePlan demoState c4BadAggPlan = .ok ⟨false, some msg, none, none⟩) :=
  ⟨rfl, ⟨.str "median", rfl, by decide⟩,
    C4_aggregate_requires_aggregation demoState c4BadAggPlan rfl
      (Or.inr ⟨.str "median", rfl, by decide⟩)⟩

/-- A plan whose `filters` field is the number `42`. -/
def c5RaisePlan : Plan :=
  [("files", .arr [.str "holdings.csv"]),
   ("operation", .str "count"),
   ("filters", .num 42)]

/-- A plan whose `group_by` is the unhashable list `[1]` (its `filters`
field is absent, so the filters loop is well-formed). -/
def c5UnhashablePlan : Plan :=
  [("files", .arr [.str "holdings.csv"]),
   ("operation", .str "count"),
   ("group_by", .arr [.num 1])]

/-- Claim C5 counterexample: with `filters: 42` the validator raises a
`TypeError` (iterating a non-iterable), and with `group_by: [1]` the
membership test `plan['group_by'] not in df.columns` hashes the key and
raises `TypeError: unhashable type: 'list'`; both escape `execute_plan`
uncaught — refuting "never raises" for arbitrary JSON plans. -/
theorem C5_counterexample :
    (validatePlan demoState c5RaisePlan =
      .error "TypeError: 'int' object is not iterable" ∧
    executePlan demoState c5RaisePlan =
      .error "TypeError: 'int' object is not iterable") ∧
    (validatePlan demoState c5UnhashablePlan =
      .error "TypeError: unhashable type: 'list'" ∧
    executePlan demoState c5UnhashablePlan =
      .error "TypeError: unhashable type: 'list'") := ⟨⟨rfl, rfl⟩, ⟨rfl, rfl⟩⟩

/-- Witness for C5: the amended theorem applied to the demo grouped-sum
plan (whose `filters` field is absent). -/
theorem C5_validator_total_on_wf_filters_witness :
    wfFilters demoPlan ∧
    wfColumnRefs demoPlan ∧
    (∃ b msg, validatePlan demoState demoPlan = .ok (b, msg) ∧
      (b = false → msg ≠ "")) :=
  ⟨by simp [wfFilters, demoPlan, List.lookup],
    ⟨fun v hv _ => by simp [demoPlan, List.lookup] at hv; simp [← hv, Json.hashable],
     fun v hv _ => by simp [demoPlan, List.lookup] at hv; simp [← hv, Json.hashable]⟩,
    C5_validator_total_on_wf_filters demoState demoPlan
      (by simp [wfFilters, demoPlan, List.lookup])
      ⟨fun v hv _ => by simp [demoPlan, List.lookup] at hv; simp [← hv, Json.hashable],
       fun v hv _ => by simp [demoPlan, List.lookup] at hv; simp [← hv, Json.hashable]⟩⟩

/-- A plan with the whitelisted-but-unimplemented operation `group_by`. -/
def c6GroupByPlan : Plan :=
  [("files", .arr [.str "holdings.csv"]), ("operation", .str "group_by")]

/-- Claim C6 counterexample: a plan with operation `group_by` passes
validation — refuting "every plan whose operation is any other value
(including group_by, sort, filter, or limit) fails validation and is not
executed" — and execution returns the caught `NameError`. -/
theorem C6_counterexample :
    validatePlan demoState c6GroupByPlan = .ok (true, "") ∧
    executePlan demoState c6GroupByPlan =
      .ok ⟨false, some "name 'result' is not defined", none, none⟩ := ⟨rfl, rfl⟩

/-- Witness for C6: the amended theorem applied to the `group_by` plan on
the demo state. -/
theorem C6_extra_operations_pass_validation_witness :
    (List.lookup "operation" c6GroupByPlan = some (.str "group_by")) ∧
    ("group_by" = "group_by" ∨ "group_by" = "sort" ∨ "group_by" = "filter" ∨
      "group_by" = "limit") ∧
    (List.lookup "files" c6GroupByPlan = some (.arr [.str "holdings.csv"])) ∧
    List.lookup "filters" c6GroupByPlan = none ∧
    validatePlan demoState c6GroupByPlan = .ok (true, "") ∧
    executePlan demoState c6GroupByPlan =
      .ok ⟨false, some "name 'result' is not defined", none, none⟩ :=
  ⟨rfl, Or.inl rfl, rfl, rfl, rfl,
    C6_extra_operations_pass_validation demoState c6GroupByPlan "group_by"
      (.str "holdings.csv") [] rfl (Or.inl rfl) rfl rfl rfl⟩


/-- Claim C7, amended: sorting a result mapping with `desc` yields a
mapping whose values, in iteration order, are non-increasing; and for
every `k ≥ 1`, a limit of `k` then yields the first `k` entries — at most
`k`, a prefix of (in the same relative order as) the mapping before
truncation.  (For `k = 0` the original claim is false: `0` is falsy, so
the limit step is skipped and the full mapping is returned — see the
counterexample.) -/
theorem C7_sort_desc_limit : ∀ (es : List (Json × Int)) (kvs : Plan) (k : Nat),
    1 ≤ k →
    kvs.lookup "limit" = some (.num (k : Int)) →
    ∃ es2, applySort (.str "desc") (.dict es) = .dict es2 ∧
      es2.Pairwise (fun a b => b.2 ≤ a.2) ∧
      limitStep kvs (.dict es2) = .ok (.dict (es2.take k)) ∧
      (es2.take k).length ≤ k ∧ (es2.take k) <+: es2 := by
  intro es kvs k hk hl
  refine ⟨sortEntries true es, rfl, ?_, ?_, ?_, ?_⟩
  · exact (pairwise_sortEntries true es).imp (fun hab => by simpa [valLe] using hab)
  · rw [limitStep, hl]
    have htr : (Json.num (k : Int)).truthy = true := by
      simp [Json.truthy]
      omega
    simp only [htr, if_true]
    rw [applyLimit]
    rw [if_pos (by omega : (0 : Int) ≤ (k : Int))]
    simp
  · exact List.length_take_le k _
  · exact List.take_prefix k _

/-- Claim C7 counterexample: with `limit = 0` (falsy) the limit step is
skipped, so the result keeps its single entry rather than being truncated
to at most `0` entries. -/
theorem C7_counterexample :
    limitStep [("limit", .num 0)] (.dict [(.str "A", 1)]) =
      .ok (.dict [(.str "A", 1)]) ∧
    ¬(([((Json.str "A" : Json), (1 : Int))]).length ≤ 0) := ⟨rfl, by decide⟩

/-- Witness for C7: sorting then limiting a two-entry mapping with
`limit = 1`. -/
theorem C7_sort_desc_limit_witness :
    1 ≤ 1 ∧
    (List.lookup "limit" [("limit", Json.num (1 : Int))] =
      some (Json.num ((1 : Nat) : Int))) ∧
    (∃ es2, applySort (.str "desc") (.dict [(.str "B", 1), (.str "A", 2)]) = .dict es2 ∧
      es2.Pairwise (fun a b => b.2 ≤ a.2) ∧
      limitStep [("limit", Json.num (1 : Int))] (.dict es2) = .ok (.dict (es2.take 1)) ∧
      (es2.take 1).length ≤ 1 ∧ (es2.take 1) <+: es2) :=
  ⟨Nat.le_refl 1, rfl,
    C7_sort_desc_limit [(.str "B", 1), (.str "A", 2)]
      [("limit", Json.num (1 : Int))] 1 (Nat.le_refl 1) rfl⟩

/-- Claim C8: a chat request whose question is empty or whitespace-only is
rejected with HTTP 400 before any plan generation: the outcome is the
same for every chatbot (hence for every planner oracle), so the planner
is never invoked. -/
theorem C8_empty_question_400 : ∀ (question : String),
    pyStrip question = "" →
    ∀ cb : Chatbot,
      chatEndpoint (some cb) question = .httpError 400 "Question cannot be empty" := by
  intro q hq cb
  rw [chatEndpoint]
  simp [hq]

/-- Witness for C8: the whitespace question `"   "` on a concrete
chatbot. -/
theorem C8_empty_question_400_witness :
    pyStrip "   " = "" ∧
    chatEndpoint (some trivialChatbot) "   " =
      .httpError 400 "Question cannot be empty" :=
  ⟨rfl, C8_empty_question_400 "   " rfl trivialChatbot⟩

/-- Claim C9: executing any plan leaves the two loaded tables unchanged:
`execute_plan` contains no assignment to `self.trades_df` or
`self.holdings_df`, so the object state returned alongside any outcome —
success, failure or uncaught exception — is the state at call time. -/
theorem C9_execute_plan_preserves_tables : ∀ (s : ExecState) (kvs : Plan),
    (executePlanSt s kvs).2 = s ∧
    (executePlanSt s kvs).2.trades_df = s.trades_df ∧
    (executePlanSt s kvs).2.holdings_df = s.holdings_df :=
  fun _ _ => ⟨rfl, rfl, rfl⟩

/-- A count plan carrying one filter clause with the unknown operator
`LIKE`. -/
def c10Plan : Plan :=
  [("files", .arr [.str "holdings.csv"]),
   ("operation", .str "count"),
   ("filters", .arr [.obj [("column", .str "Fund"),
     ("operator", .str "LIKE"), ("value", .str "A")]])]

/-- Claim C10: a filter clause whose operator is none of `==`, `!=`, `>`,
`<`, `>=`, `<=`, `in` matches no branch of the operator dispatch and is
silently ignored, leaving the row set unchanged; the rest of the plan
executes and can return `success=true`, as the `LIKE` plan shows (all
three demo rows are counted). -/
theorem C10_unknown_filter_operator_ignored :
    (∀ (df : DataFrame) (item : List (String × Json)) (op : Json),
      item.lookup "operator" = some op →
      op ∉ [Json.str "==", Json.str "!=", Json.str ">", Json.str "<",
        Json.str ">=", Json.str "<=", Json.str "in"] →
      applyFilterItem df (.obj item) = .ok df) ∧
    executePlan demoState c10Plan =
      .ok ⟨true, none, some (.scalar 3), some c10Plan⟩ := by
  constructor
  · intro df item op hop hnot
    rw [applyFilterItem]
    simp only [hop, Option.getD_some]
    split <;> simp_all
  · rfl

/-- Witness for C10: ignoring a `LIKE` clause on the demo table leaves
its rows intact. -/
theorem C10_unknown_filter_operator_ignored_witness :
    (List.lookup "operator"
      [("column", Json.str "Fund"), ("operator", Json.str "LIKE"),
        ("value", Json.str "A")] = some (Json.str "LIKE")) ∧
    (Json.str "LIKE" ∉ [Json.str "==", Json.str "!=", Json.str ">", Json.str "<",
      Json.str ">=", Json.str "<=", Json.str "in"]) ∧
    applyFilterItem holdingsDemo
      (.obj [("column", Json.str "Fund"), ("operator", Json.str "LIKE"),
        ("value", Json.str "A")]) = .ok holdingsDemo := by
  refine ⟨rfl, ?_, ?_⟩
  · intro h
    simp at h
  · exact C10_unknown_filter_operator_ignored.1 holdingsDemo
      [("column", Json.str "Fund"), ("operator", Json.str "LIKE"),
        ("value", Json.str "A")] (Json.str "LIKE") rfl (by intro h; simp at h)

end PropertyLoop
